import Mathlib

/-!
Verification development for the UAV log-analysis backend
(`backend/tools.py` and `backend/data_parser.py`).

The Python module operates on a flight dataset: a JSON object mapping log
names ("GPS", "BARO", "ERR", ...) to tables, a table being either a list of
row objects or (for some producers) an object of column lists.  The analysis
tools wrap pandas DataFrames; here tables are embedded shallowly:

  * a cell value `Val` is a Python int, float, string, or the missing value
    (pandas NaN / JSON null are merged into `Val.nan`; both are skipped or
    raise in the same places in every path the theorems below exercise);
  * a row is an association list of (field, value);
  * a DataFrame `Df` is its column-name list plus its rows (a filtered frame
    keeps the column list, as pandas does);
  * Python floats are modelled as exact rationals (`ℚ`), and the `:.2f`
    formatting of the source is modelled as exact round-half-to-even at two
    decimals of the rational value;
  * code that can raise is written in `Except String`; each tool discharges
    it with the `try/except` handler of the source, so every tool is a total
    function `FlightState → String` exactly as the source promises.
-/

attribute [local semireducible] Rat.add Rat.mul Rat.sub Rat.inv Rat.ofScientific

/-- A Python/JSON cell value as the analysis code sees it inside a DataFrame:
an int, a float, a string, or the missing value (NaN / null / absent). -/
inductive Val where
  | i (n : ℤ)
  | f (q : ℚ)
  | s (t : String)
  | nan
  deriving DecidableEq

/-- A table of the flight-data JSON: a list of row objects, an object of
column lists, or some other JSON value (only the MODE handlers distinguish
these shapes; `other` makes their `else` branch representable). -/
inductive TableV where
  | rows (rs : List (List (String × Val)))
  | cols (cs : List (String × List Val))
  | other
  deriving DecidableEq

/-- One row object: an association list field → value. -/
abbrev Row := List (String × Val)

/-- The flight dataset: log-type name → table, as `data_parser.SHARED_FLIGHT_DATA`. -/
abbrev FlightData := List (String × TableV)

/-- The engine's state: `none` models `SHARED_FLIGHT_DATA is None`. -/
abbrev FlightState := Option FlightData

/-- Python truthiness of a table value (`not flight_data["EV"]` etc.):
an empty list or empty object is falsy. -/
def TableV.truthy : TableV → Bool
  | .rows rs => !rs.isEmpty
  | .cols cs => !cs.isEmpty
  | .other => true

/-- `flight_data[k]` lookup; `none` when the key is absent. -/
def FlightData.getTable? (fd : FlightData) (k : String) : Option TableV :=
  (fd.find? (fun p => p.1 == k)).map (·.2)

/-- Python truthiness of the whole dataset: `if not flight_data` is taken
both when no data was ever loaded (`None`) and when it is an empty dict. -/
def FlightState.loadedData : FlightState → Option FlightData
  | none => none
  | some fd => if fd.isEmpty then none else some fd

/-- `row.get(k)`: first binding of the field in the row object. -/
def Row.get? (r : Row) (k : String) : Option Val :=
  (r.find? (fun p => p.1 == k)).map (·.2)

/-- A DataFrame cell: the row's value, NaN when this row lacks the column. -/
def Row.getV (r : Row) (k : String) : Val :=
  (r.get? k).getD .nan

/-- The column set of `pd.DataFrame(list_of_row_objects)`: the union of the
rows' keys in first-appearance order. -/
def unionKeys (rs : List Row) : List String :=
  rs.foldl (fun acc r => acc ++ ((r.map Prod.fst).filter (fun k => !acc.contains k))) []

/-- A pandas DataFrame: explicit column list plus rows.  Filtering rows keeps
the column list, which is how pandas behaves and what `col in df.columns`
checks observe on a filtered frame. -/
structure Df where
  cols : List String
  rows : List Row
  deriving DecidableEq

/-- Column membership, `c in df.columns`. -/
def Df.hasCol (df : Df) (c : String) : Bool := df.cols.contains c

/-- `df[mask]`: keep the rows satisfying the predicate, keep the columns. -/
def Df.filterRows (df : Df) (p : Row → Bool) : Df := ⟨df.cols, df.rows.filter p⟩

/-- Whether all column lists of a dict-of-lists table have one length
(otherwise `pd.DataFrame(dict)` raises). -/
def sameLengths (cs : List (String × List Val)) : Bool :=
  match cs with
  | [] => true
  | c :: rest => rest.all (fun d => d.2.length == c.2.length)

/-- Transpose a dict-of-lists into rows (all lists of one length `n`). -/
def transposeCols (cs : List (String × List Val)) (n : ℕ) : List Row :=
  (List.range n).map (fun idx => cs.map (fun c => (c.1, c.2.getD idx .nan)))

/-- `pd.DataFrame(table)`: list-of-rows and equal-length dict-of-lists build a
frame; a ragged dict or another shape raises `ValueError`. -/
def dfOfTable : TableV → Except String Df
  | .rows rs => .ok ⟨unionKeys rs, rs⟩
  | .cols cs =>
      if sameLengths cs then
        .ok ⟨cs.map Prod.fst, transposeCols cs ((cs.head?.map (·.2.length)).getD 0)⟩
      else .error "ValueError"
  | .other => .error "ValueError"

/-- The numeric reading of a value; `none` for strings and the missing value. -/
def Val.toQ? : Val → Option ℚ
  | .i n => some (n : ℚ)
  | .f q => some q
  | .s _ => none
  | .nan => none

/-- Truncation toward zero, Python `int()` on a float. -/
def ratTrunc (q : ℚ) : ℤ :=
  if 0 ≤ q then q.floor else -((-q).floor)

/-- Python `int(value)` where it succeeds: ints pass through, floats truncate,
integer-literal strings parse; NaN/None and other strings fail. -/
def Val.pyInt? : Val → Option ℤ
  | .i n => some n
  | .f q => some (ratTrunc q)
  | .s t => t.toInt?
  | .nan => none

/-- Elementwise `value < c` of a numeric comparison mask: NaN compares false
(pandas), a string raises. -/
def Val.ltQ (v : Val) (c : ℚ) : Bool :=
  match v.toQ? with
  | some q => decide (q < c)
  | none => false

/-- Elementwise `value > c`; NaN compares false. -/
def Val.gtQ (v : Val) (c : ℚ) : Bool :=
  match v.toQ? with
  | some q => decide (c < q)
  | none => false

/-- Elementwise `value == c` against a numeric constant (pandas matches
`16.0 == 16`; a string or NaN never equals a number). -/
def Val.eqQ (v : Val) (c : ℚ) : Bool :=
  match v.toQ? with
  | some q => decide (q = c)
  | none => false

/-- Elementwise `value in [c, ...]` (`Series.isin`): numeric equality with any
member; NaN and strings match nothing numeric. -/
def Val.isinQ (v : Val) (cs : List ℚ) : Bool :=
  cs.any (fun c => v.eqQ c)

/-- Whether a column holds a string anywhere: the arithmetic and ordered
comparisons of the source raise a `TypeError` on such a column. -/
def Df.colHasStr (df : Df) (c : String) : Bool :=
  df.rows.any (fun r => match r.getV c with | .s _ => true | _ => false)

/-- Ordered comparison against a constant over a whole column, as the pandas
masks `df[col] < c` behave: raises on a string, NaN is false. -/
def Df.maskLt (df : Df) (c : String) (bound : ℚ) : Except String (List Bool) :=
  if df.colHasStr c then .error "TypeError"
  else .ok (df.rows.map (fun r => (r.getV c).ltQ bound))

/-- `value / divisor` for a raw timestamp: numbers divide, NaN propagates
(`nan / 1000 = nan`), a string raises `TypeError`. -/
def Val.divQ (v : Val) (d : ℚ) : Except String Val :=
  match v with
  | .i n => .ok (.f ((n : ℚ) / d))
  | .f q => .ok (.f (q / d))
  | .nan => .ok .nan
  | .s _ => .error "TypeError"

/-- Python `f"{n:02d}"`: pad a (possibly signed) integer to width two. -/
def pad2 (n : ℤ) : String :=
  if 0 ≤ n ∧ n < 10 then "0" ++ toString n else toString n

/-- Two decimal digits `00`..`99`. -/
def twoDigits (n : ℤ) : String :=
  if n < 10 then "0" ++ toString n else toString n

/-- Round a rational to the nearest integer, ties to even — the rounding of
Python `format(x, '.2f')` applied to the exact value (the source's floats
are modelled as exact rationals). -/
def roundHalfEven (q : ℚ) : ℤ :=
  let fl := q.floor
  let r := q - (fl : ℚ)
  if r < 1/2 then fl
  else if 1/2 < r then fl + 1
  else if fl % 2 = 0 then fl else fl + 1

/-- Python `f"{x:.2f}"` on the exact rational value. -/
def format_rat2 (q : ℚ) : String :=
  let n := roundHalfEven (q * 100)
  let sign := if n < 0 ∨ (n = 0 ∧ q < 0) then "-" else ""
  let m := n.natAbs
  sign ++ toString (m / 100) ++ "." ++ twoDigits ((m % 100 : ℕ) : ℤ)

/-- `_format_time_string` of the source: `divmod(total_seconds, 60)`, both
parts printed `:02d` after `int()`, then the raw seconds to two decimals. -/
def format_time_string (q : ℚ) : String :=
  let minutes : ℤ := (q / 60).floor
  let rem : ℤ := (q - 60 * (minutes : ℚ)).floor
  pad2 minutes ++ ":" ++ pad2 rem ++ " (" ++ format_rat2 q ++ " seconds raw)"

/-- `_format_time_string` applied to a computed time value: formatting NaN
raises (`int(nan)` is a `ValueError`), as the source's handlers observe. -/
def Val.formatTime : Val → Except String String
  | .i n => .ok (format_time_string (n : ℚ))
  | .f q => .ok (format_time_string q)
  | _ => .error "ValueError"

/-- Python `f"{sqrt(v):.2f}"` for a nonnegative rational `v` (used for the
sample standard deviation, whose square is rational): the exact
floor of `100*sqrt(v)` via `Nat.sqrt`, then the half-to-even tie rule. -/
def formatSqrt2 (v : ℚ) : String :=
  let m : ℤ := (Nat.sqrt (v * 10000).floor.toNat : ℤ)
  let n : ℤ :=
    if v * 40000 < ((2 * m + 1) ^ 2 : ℤ) then m
    else if ((2 * m + 1) ^ 2 : ℤ) < v * 40000 then m + 1
    else if m % 2 = 0 then m else m + 1
  toString (n.natAbs / 100) ++ "." ++ twoDigits ((n.natAbs % 100 : ℕ) : ℤ)

/-- Decimal text of a rational with terminating decimal expansion (sufficient
for every value the theorems touch); non-terminating values fall back to the
exact fraction text.  Models Python `repr(float)` for the repr sites. -/
def decimalOfRat (q : ℚ) : String :=
  let sign := if q < 0 then "-" else ""
  let a := |q|
  match (List.range 18).find? (fun k => (a * (10 : ℚ) ^ k).den == 1) with
  | some 0 => sign ++ toString (a.num) ++ ".0"
  | some k =>
      let n := (a * (10 : ℚ) ^ k).num.natAbs
      let ip := n / 10 ^ k
      let fp := n % 10 ^ k
      let fps := toString fp
      let padded := String.mk (List.replicate (k - fps.length) '0') ++ fps
      sign ++ toString ip ++ "." ++ padded
  | none => sign ++ toString a

/-- Python `str(value)`/f-string interpolation of a raw cell value. -/
def Val.pyStr : Val → String
  | .i n => toString n
  | .f q => decimalOfRat q
  | .s t => t
  | .nan => "nan"

/-- Python `repr(value)` as it appears inside a printed dict/list: like
`pyStr` but a string is quoted. -/
def Val.pyRepr : Val → String
  | .s t => "'" ++ t ++ "'"
  | v => v.pyStr

/-- `TIME_COLUMNS_DIVISORS` iterated in insertion order by
`_get_time_column_and_divisor`: `TimeUS` (µs) first, then `time_boot_ms`,
then `TimeMS` (both ms); `(None, 1)` when no time field is present. -/
def get_time_column_and_divisor (cols : List String) : Option String × ℚ :=
  if cols.contains "TimeUS" then (some "TimeUS", 1000000)
  else if cols.contains "time_boot_ms" then (some "time_boot_ms", 1000)
  else if cols.contains "TimeMS" then (some "TimeMS", 1000)
  else (none, 1)

/-- The inline time-column selection of `correlate_errors_with_mode_changes`
and `detect_sensor_triggered_failsafe`:
`next((col for col in ["TimeUS", "TimeMS", "time_boot_ms"] if col in df.columns), None)`. -/
def inline_time_column (cols : List String) : Option String :=
  if cols.contains "TimeUS" then some "TimeUS"
  else if cols.contains "TimeMS" then some "TimeMS"
  else if cols.contains "time_boot_ms" then some "time_boot_ms"
  else none

/-- The divisor those two call sites pair with the inline selection:
`1_000_000 if col == "TimeUS" else 1_000`. -/
def inline_divisor (c : String) : ℚ :=
  if c == "TimeUS" then 1000000 else 1000

/-- Stable ascending order on computed time values with NaN placed last:
`sort_values` defaults (`kind` stable for our purposes, `na_position='last'`). -/
def timeLe : Val → Val → Bool
  | .nan, v => match v with | .nan => true | _ => false
  | v, .nan => match v.toQ? with | some _ => true | none => true
  | a, b =>
      match a.toQ?, b.toQ? with
      | some x, some y => decide (x ≤ y)
      | _, _ => true

/-- Whether `needle` starts `hay` (character lists). -/
def seqStarts : List Char → List Char → Bool
  | [], _ => true
  | _ :: _, [] => false
  | a :: as, b :: bs => a == b && seqStarts as bs

/-- Whether `needle` occurs contiguously in `hay` (character lists). -/
def seqHas (needle : List Char) : List Char → Bool
  | [] => needle.isEmpty
  | b :: bs => seqStarts needle (b :: bs) || seqHas needle bs

/-- Python `needle in hay` on strings. -/
def pyIn (needle hay : String) : Bool := seqHas needle.data hay.data

/-- Python `str.lower()` (character-wise; the analysis strings are ASCII). -/
def pyLower (s : String) : String := String.mk (s.data.map Char.toLower)

/-- Python `sep.join(parts)`. -/
def joinSep (sep : String) : List String → String
  | [] => ""
  | [a] => a
  | a :: rest => a ++ sep ++ joinSep sep rest

/-- Attach the normalized time `raw / divisor` to each row, raising where the
source's column division raises (a string in the time column). -/
def tagTime (df : Df) (tc : String) (dv : ℚ) : Except String (List (Val × Row)) :=
  df.rows.mapM (fun r => ((r.getV tc).divQ dv).map (fun v => (v, r)))

/-- Insert into a sorted list, keeping earlier elements first on ties. -/
def insertByTime (x : Val × Row) : List (Val × Row) → List (Val × Row)
  | [] => [x]
  | y :: ys => if timeLe x.1 y.1 then x :: y :: ys else y :: insertByTime x ys

/-- Rows sorted by their computed time (stable insertion sort, NaN last),
`sort_values` ascending. -/
def sortTagged : List (Val × Row) → List (Val × Row)
  | [] => []
  | x :: xs => insertByTime x (sortTagged xs)

/-- Largest value of a rational list (`Series.max` after dropping NaN). -/
def listMaxQ : List ℚ → Option ℚ
  | [] => none
  | q :: rest => some (rest.foldl max q)

/-- Smallest value of a rational list (`Series.min` after dropping NaN). -/
def listMinQ : List ℚ → Option ℚ
  | [] => none
  | q :: rest => some (rest.foldl min q)

/-- First position of the maximum among the non-NaN entries (`Series.idxmax`:
NaN skipped, first occurrence on ties); `none` when no entry is numeric. -/
def idxmaxQ : List (Option ℚ) → ℕ → Option (ℕ × ℚ)
  | [], _ => none
  | v :: rest, k =>
      match v, idxmaxQ rest (k + 1) with
      | some q, some (j, m) => if m ≤ q then some (k, q) else some (j, m)
      | some q, none => some (k, q)
      | none, r => r

/-- Longest run of consecutive `true`s (the `shift/cumsum` grouping of
`find_first_gps_loss` only asks whether some group has size ≥ 5). -/
def maxRunTrue (l : List Bool) : ℕ :=
  (l.foldl (fun acc b => if b then (acc.1 + 1, max acc.2 (acc.1 + 1)) else (0, acc.2))
    ((0 : ℕ), (0 : ℕ))).2

/-- Positions whose flag is set: `df[df['NSats'] < 6].index.tolist()` on the
re-indexed sorted frame. -/
def degIndices (ds : List Bool) : List ℕ :=
  (List.range ds.length).filter (fun idx => ds.getD idx false)

/-- Group a (strictly increasing) index list into maximal blocks of
consecutive integers, as the `while` loop of `get_gps_degradation_duration`
walks `degraded_indices`: each block is its (first, last) pair. -/
def runsAux (s e : ℕ) : List ℕ → List (ℕ × ℕ)
  | [] => [(s, e)]
  | j :: rest => if j = e + 1 then runsAux s j rest else (s, e) :: runsAux j j rest

/-- The maximal consecutive blocks of an index list. -/
def runs : List ℕ → List (ℕ × ℕ)
  | [] => []
  | idx :: rest => runsAux idx idx rest

/-- Duration charged to one degraded block `[s, e]` over a table of `n` rows
with time lookup `t` — the source's cases: a multi-row block spans last minus
first; a single row takes half the two neighbouring gaps, the single adjacent
gap at a boundary, or zero when it is the only row. -/
def segDurQ (t : ℕ → ℚ) (n : ℕ) (s e : ℕ) : ℚ :=
  if s = e then
    if e + 1 < n ∧ 0 < s then (t (e + 1) - t (s - 1)) / 2
    else if e + 1 < n then t (e + 1) - t e
    else if 0 < s then t s - t (s - 1)
    else 0
  else t e - t s

/-- Total degraded duration: the blocks' durations summed. -/
def total_degraded_duration (t : ℕ → ℚ) (n : ℕ) (ds : List Bool) : ℚ :=
  ((runs (degIndices ds)).map (fun r => segDurQ t n r.1 r.2)).sum

/-- NaN-propagating subtraction for the same computation run on raw pandas
values (`nan - x = nan`). -/
def subO : Option ℚ → Option ℚ → Option ℚ
  | some a, some b => some (a - b)
  | _, _ => none

/-- NaN-propagating addition. -/
def addO : Option ℚ → Option ℚ → Option ℚ
  | some a, some b => some (a + b)
  | _, _ => none

/-- `segDurQ` on NaN-capable times, exactly the source's branch structure. -/
def segDurO (t : ℕ → Option ℚ) (n : ℕ) (s e : ℕ) : Option ℚ :=
  if s = e then
    if e + 1 < n ∧ 0 < s then (subO (t (e + 1)) (t (s - 1))).map (· / 2)
    else if e + 1 < n then subO (t (e + 1)) (t e)
    else if 0 < s then subO (t s) (t (s - 1))
    else some 0
  else subO (t e) (t s)

/-- `total_degraded_duration` on NaN-capable times (`0.0` plus each block). -/
def total_degraded_durationO (t : ℕ → Option ℚ) (n : ℕ) (ds : List Bool) : Option ℚ :=
  ((runs (degIndices ds)).map (fun r => segDurO t n r.1 r.2)).foldl addO (some 0)

/-- `get_gps_degradation_duration` after its dataset and table guards. -/
def gps_degradation_body (tbl : TableV) : Except String String := do
  let df ← dfOfTable tbl
  if !(df.hasCol "NSats") then
    return "GPS satellite count ('NSats') not available in the log. Cannot calculate degradation duration."
  match get_time_column_and_divisor df.cols with
  | (none, _) =>
      return "No valid timestamp column (TimeUS, time_boot_ms, or TimeMS) found in GPS data."
  | (some tc, dv) => do
      let tagged ← tagTime df tc dv
      let sorted := sortTagged tagged
      if df.colHasStr "NSats" then throw "TypeError"
      let ds := sorted.map (fun p => (p.2.getV "NSats").ltQ 6)
      if (degIndices ds).isEmpty then
        return "GPS signal remained strong throughout the flight (NSats was always ≥ 6)."
      let t : ℕ → Option ℚ := fun idx => ((sorted.getD idx (Val.nan, [])).1).toQ?
      match total_degraded_durationO t sorted.length ds with
      | some dur =>
          return "GPS signal was degraded (NSats < 6) for approximately " ++
            format_time_string dur ++ " during the flight."
      | none => throw "ValueError"

/-- `get_gps_degradation_duration`. -/
def get_gps_degradation_duration (st : FlightState) : String :=
  match st.loadedData with
  | none => "Flight data is not available. Please upload a log file first."
  | some fd =>
      match fd.getTable? "GPS" with
      | none => "No 'GPS' log data found in the flight log. Cannot calculate GPS degradation duration."
      | some tbl =>
          match gps_degradation_body tbl with
          | .ok s => s
          | .error e =>
              "An unexpected error occurred while calculating GPS degradation duration: " ++ e

/-- `check_rc_signal_loss`, primary path over the EV table. -/
def rc_ev_body (tbl : TableV) : Except String String := do
  let df ← dfOfTable tbl
  if !(df.hasCol "Id") then
    return "The 'EV' log is present, but lacks the 'Id' field necessary to detect RC signal loss events."
  let failsafe := df.filterRows (fun r => (r.getV "Id").eqQ 10)
  if failsafe.rows.isEmpty then
    return "✅ 'EV' log is present, and no RC signal loss (EV.Id = 10) was detected."
  match get_time_column_and_divisor failsafe.cols with
  | (some tc, dv) => do
      let tsec ← ((failsafe.rows.headD []).getV tc).divQ dv
      let ftime ← tsec.formatTime
      return "✅ RC signal loss detected! The first RC Failsafe (EV.Id = 10) occurred at " ++
        ftime ++ "."
  | (none, _) =>
      return "✅ RC signal loss detected (EV.Id = 10), but no timestamp could be accurately determined from EV logs."

/-- `check_rc_signal_loss`, fallback path over the MODE table (the inferred
failsafe modes are `[5, 6, 9, 11]`). -/
def rc_mode_body (tbl : TableV) : Except String String := do
  let df ← dfOfTable tbl
  if !(df.hasCol "Mode") then
    return "Fallback to MODE log failed: no 'Mode' column present to infer RC signal loss."
  let suspected := df.filterRows (fun r => (r.getV "Mode").isinQ [5, 6, 9, 11])
  if suspected.rows.isEmpty then
    return "No 'EV' log found, and no common RC failsafe modes were detected in the 'MODE' log. RC signal loss is unlikely."
  match get_time_column_and_divisor suspected.cols with
  | (some tc, dv) => do
      let tsec ← ((suspected.rows.headD []).getV tc).divQ dv
      let ftime ← tsec.formatTime
      return "⚠️ No 'EV' log found. However, based on 'MODE' changes to known failsafe modes (e.g., RTL, Loiter, Auto, Land), an RC failsafe is suspected around " ++
        ftime ++ ". This is an inference, not a direct failsafe event record."
  | (none, _) =>
      return "⚠️ No 'EV' log found, and possible RC failsafe inferred from mode change, but no timestamp could be accurately determined from MODE logs."

/-- The last branch of `check_rc_signal_loss`: neither log usable. -/
def rc_neither_msg : String :=
  "❌ Neither 'EV' nor 'MODE' logs are available in the flight data. Unable to determine RC signal loss or provide an inference."

/-- The MODE-side dispatch of `check_rc_signal_loss` (its `elif`/final return). -/
def rc_mode_fallback (fd : FlightData) : String :=
  match fd.getTable? "MODE" with
  | some mt =>
      if mt.truthy then
        match rc_mode_body mt with
        | .ok s => s
        | .error e =>
            "An unexpected error occurred while processing 'MODE' logs for RC signal loss inference: " ++ e
      else rc_neither_msg
  | none => rc_neither_msg

/-- `check_rc_signal_loss`: EV events first (`Id == 10`), MODE-change
inference only when the EV table is absent or empty/falsy. -/
def check_rc_signal_loss (st : FlightState) : String :=
  match st.loadedData with
  | none => "Flight data is not available. Please upload a log file first."
  | some fd =>
      match fd.getTable? "EV" with
      | some evt =>
          if evt.truthy then
            match rc_ev_body evt with
            | .ok s => s
            | .error e =>
                "An unexpected error occurred while processing 'EV' logs for RC signal loss: " ++ e
          else rc_mode_fallback fd
      | none => rc_mode_fallback fd

/-- `get_highest_altitude` after its guards. -/
def highest_altitude_body (tbl : TableV) : Except String String := do
  let df ← dfOfTable tbl
  if !(df.hasCol "Alt") then
    return "BARO log does not contain an 'Alt' (altitude) field. Unable to find highest altitude."
  if df.colHasStr "Alt" then throw "TypeError"
  match idxmaxQ (df.rows.map (fun r => (r.getV "Alt").toQ?)) 0 with
  | none => throw "ValueError"
  | some (idx, maxAlt) => do
      let maxRow := df.rows.getD idx []
      let timeString ←
        match get_time_column_and_divisor df.cols with
        | (some tc, dv) => do
            let ts ← (maxRow.getV tc).divQ dv
            match ts.toQ? with
            | some q =>
                let minutes : ℤ := (q / 60).floor
                pure (" at " ++ toString minutes ++ " min " ++
                  format_rat2 (((q - 60 * (minutes : ℚ)).floor : ℤ) : ℚ) ++ " sec (" ++
                  format_rat2 q ++ " seconds raw)")
            | none => throw "ValueError"
        | (none, _) => pure " (timestamp not available)"
      return "The highest altitude reached was " ++ format_rat2 maxAlt ++ " meters" ++
        timeString ++ " (from BARO logs)."

/-- `get_highest_altitude`. -/
def get_highest_altitude (st : FlightState) : String :=
  match st.loadedData with
  | none => "Flight data is not available. Please upload a log file first."
  | some fd =>
      match fd.getTable? "BARO" with
      | none => "BARO log data not found in the flight data. Cannot determine highest altitude."
      | some tbl =>
          match highest_altitude_body tbl with
          | .ok s => s
          | .error e => "An unexpected error occurred while processing BARO data: " ++ e

/-- `find_first_gps_loss` after its guards (original row order; no sort). -/
def first_gps_loss_body (tbl : TableV) : Except String String := do
  let df ← dfOfTable tbl
  let hasNsats := df.hasCol "NSats"
  let hasFixtype := df.hasCol "FixType"
  match get_time_column_and_divisor df.cols with
  | (none, _) =>
      return "No valid timestamp column (TimeUS, time_boot_ms, or TimeMS) found in GPS data."
  | (some tc, dv) => do
      if !hasNsats && !hasFixtype then
        return "Neither 'NSats' nor 'FixType' fields found in GPS data. Cannot assess GPS signal quality."
      if hasNsats && df.colHasStr "NSats" then throw "TypeError"
      if hasFixtype && df.colHasStr "FixType" then throw "TypeError"
      let degraded := df.rows.filter (fun r =>
        (hasNsats && (r.getV "NSats").ltQ 6) || (hasFixtype && (r.getV "FixType").ltQ 2))
      match degraded with
      | [] =>
          return "GPS signal remained strong throughout the flight (no degradation events found based on NSats < 6 or FixType < 2)."
      | first :: _ => do
          let tsec ← (first.getV tc).divQ dv
          let reasons :=
            (if hasNsats && (first.getV "NSats").ltQ 6 then
              ["satellite count ('NSats') dropped to " ++ (first.getV "NSats").pyStr] else []) ++
            (if hasFixtype && (first.getV "FixType").ltQ 2 then
              ["fix type ('FixType') was " ++ (first.getV "FixType").pyStr] else [])
          let reasonStr := joinSep " and " reasons
          let zeroFlags := df.rows.map (fun r => (r.getV "NSats").eqQ 0)
          let zeroCount := df.rows.countP (fun r => (r.getV "NSats").eqQ 0)
          let warning :=
            if hasNsats ∧ 5 ≤ maxRunTrue zeroFlags ∧ 0 < zeroCount then
              " (Warning: GPS signal indicated zero satellites for a significant period. Total " ++
                toString zeroCount ++ " data points showed NSats = 0.)"
            else ""
          let fts ← tsec.formatTime
          return "GPS signal degradation was first observed at " ++ fts ++ " due to " ++
            reasonStr ++ "." ++ warning

/-- `find_first_gps_loss`. -/
def find_first_gps_loss (st : FlightState) : String :=
  match st.loadedData with
  | none => "Flight data is not available. Please upload a log file first."
  | some fd =>
      match fd.getTable? "GPS" with
      | none => "No 'GPS' log data found in the flight log. Cannot assess GPS signal quality."
      | some tbl =>
          match first_gps_loss_body tbl with
          | .ok s => s
          | .error e =>
              "An unexpected error occurred while processing GPS data for first loss: " ++ e

/-- `get_max_battery_temperature` after its guards. -/
def max_battery_body (tbl : TableV) : Except String String := do
  let df ← dfOfTable tbl
  if !(df.hasCol "Temp") then
    return "Battery temperature data ('Temp' field) is not available in the BAT logs."
  if df.colHasStr "Temp" then throw "TypeError"
  let valid := (df.rows.filterMap (fun r => (r.getV "Temp").toQ?)).filter (fun q => decide (0 < q))
  match listMaxQ valid with
  | none =>
      return "Battery temperature values are all zero or invalid (non-positive) throughout the log. The temperature sensor may have been disabled or is malfunctioning for this flight."
  | some maxTemp =>
      return "The maximum valid battery temperature recorded was " ++ format_rat2 maxTemp ++ "°C."

/-- `get_max_battery_temperature`. -/
def get_max_battery_temperature (st : FlightState) : String :=
  match st.loadedData with
  | none => "Flight data is not available. Please upload a log file first."
  | some fd =>
      match fd.getTable? "BAT" with
      | none => "No 'BAT' (battery) log data found in the flight logs."
      | some tbl =>
          if !tbl.truthy then "No 'BAT' (battery) log data found in the flight logs."
          else
            match max_battery_body tbl with
            | .ok s => s
            | .error e =>
                "An unexpected error occurred while processing battery temperature data: " ++ e

/-- `get_total_flight_time` after its guards. -/
def total_flight_time_body (tbl : TableV) : Except String String := do
  let df ← dfOfTable tbl
  match get_time_column_and_divisor df.cols with
  | (none, _) =>
      return "No suitable timestamp column (TimeUS, time_boot_ms, or TimeMS) found in GPS data."
  | (some tc, dv) => do
      if df.colHasStr tc then throw "TypeError"
      let nums := df.rows.filterMap (fun r => (r.getV tc).toQ?)
      match listMinQ nums, listMaxQ nums with
      | some startRaw, some endRaw =>
          let startSec := startRaw / dv
          let endSec := endRaw / dv
          let durSec := (endRaw - startRaw) / dv
          let minutes : ℤ := (durSec / 60).floor
          let rem : ℤ := (durSec - 60 * (minutes : ℚ)).floor
          return "The total flight time was " ++ toString minutes ++ " minutes and " ++
            toString rem ++ " seconds.\nFlight started at: " ++ format_time_string startSec ++
            "\nFlight ended at: " ++ format_time_string endSec ++ "\n(Based on GPS." ++ tc ++ ")"
      | _, _ => throw "ValueError"

/-- `get_total_flight_time`. -/
def get_total_flight_time (st : FlightState) : String :=
  match st.loadedData with
  | none => "Flight data is not available. Please upload a log file first."
  | some fd =>
      match fd.getTable? "GPS" with
      | none => "No 'GPS' data found in the flight log. Unable to calculate flight time."
      | some tbl =>
          if !tbl.truthy then "No 'GPS' data found in the flight log. Unable to calculate flight time."
          else
            match total_flight_time_body tbl with
            | .ok s => s
            | .error e => "An unexpected error occurred while processing flight time data: " ++ e

/-- `analyze_flight_anomalies`: a fixed guidance string. -/
def analyze_flight_anomalies (_st : FlightState) : String :=
  "To analyze flight anomalies, please ask about specific areas of concern, such as 'list critical errors', 'when did the GPS signal get lost?', or 'were there any unusual altitude drops?'"

/-- A reported altitude drop: anchor time, magnitude, and look-ahead span. -/
structure DropRep where
  anchorTime : ℚ
  magnitude : ℚ
  duration : ℚ
  deriving DecidableEq

/-- The look-ahead set of an anchor at time `t`, altitude `a`: rows strictly
later, within the window bound, whose altitude is lower —
`df[(TimeSec > t) & (TimeSec <= t + w) & (Alt < a)]`. -/
def look_ahead (rows : List (ℚ × ℚ)) (t a w : ℚ) : List (ℚ × ℚ) :=
  rows.filter (fun p => decide (t < p.1) && decide (p.1 ≤ t + w) && decide (p.2 < a))

/-- The row of minimum altitude, earliest such row on ties
(`Series.min` plus `Series.idxmin`). -/
def first_min_alt : List (ℚ × ℚ) → Option (ℚ × ℚ)
  | [] => none
  | p :: ps =>
      match first_min_alt ps with
      | none => some p
      | some q => if p.2 ≤ q.2 then some p else some q

/-- What one anchor row reports: the deepest point of its look-ahead set,
kept when the fall reaches the threshold (inclusive). -/
def drop_at (rows : List (ℚ × ℚ)) (th w : ℚ) (p : ℚ × ℚ) : Option DropRep :=
  match first_min_alt (look_ahead rows p.1 p.2 w) with
  | none => none
  | some q => if th ≤ p.2 - q.2 then some ⟨p.1, p.2 - q.2, q.1 - p.1⟩ else none

/-- The anchor loop of `detect_unusual_altitude_drops` over the time-sorted
numeric series: every row is an anchor, judged independently. -/
def detect_drops_core (rows : List (ℚ × ℚ)) (th w : ℚ) : List DropRep :=
  rows.filterMap (drop_at rows th w)

/-- `detect_unusual_altitude_drops` after its guards. -/
def altitude_drops_body (tbl : TableV) (threshold_m window_s : ℚ) : Except String String := do
  let df ← dfOfTable tbl
  if !(df.hasCol "Alt") then
    return "Altitude data ('Alt' field) not found in BARO log. Cannot detect altitude drops."
  match get_time_column_and_divisor df.cols with
  | (none, _) =>
      return "No valid timestamp column (TimeUS, time_boot_ms, or TimeMS) found in BARO log."
  | (some tc, dv) => do
      let tagged ← tagTime df tc dv
      let sorted := sortTagged tagged
      if !sorted.isEmpty && df.colHasStr "Alt" then throw "TypeError"
      -- a row with NaN time or NaN altitude can neither anchor a drop nor enter
      -- any look-ahead set (every comparison against NaN is false), so the
      -- reported lines are exactly those of the numeric sub-series
      let pairs := sorted.filterMap (fun p =>
        match p.1.toQ?, (p.2.getV "Alt").toQ? with
        | some t, some a => some (t, a)
        | _, _ => none)
      let lines := (detect_drops_core pairs threshold_m window_s).map (fun d =>
        "⚠️ Drop of " ++ format_rat2 d.magnitude ++ "m detected over " ++
          format_rat2 d.duration ++ "s starting at approximately " ++
          format_time_string d.anchorTime ++ ".")
      if lines.isEmpty then
        return "✅ No unusual altitude drops were detected during the flight based on the given criteria."
      return "Unusual altitude drops detected:\n" ++ joinSep "\n" lines

/-- `detect_unusual_altitude_drops` (defaults `threshold_m=10.0, window_s=5.0`). -/
def detect_unusual_altitude_drops (threshold_m window_s : ℚ) (st : FlightState) : String :=
  match st.loadedData with
  | none => "Flight data is not available. Please upload a log file first."
  | some fd =>
      match fd.getTable? "BARO" with
      | none => "BARO log data not found in the flight data. Cannot detect altitude drops."
      | some tbl =>
          if !tbl.truthy then "BARO log data not found in the flight data. Cannot detect altitude drops."
          else
            match altitude_drops_body tbl threshold_m window_s with
            | .ok s => s
            | .error e => "An unexpected error occurred while analyzing altitude data: " ++ e

/-- A node of the telemetry summary dict: a list of raw values or a nested
dict of lists. -/
inductive TelNode where
  | arr (vs : List Val)
  | obj (fields : List (String × List Val))
  deriving DecidableEq

/-- Python `repr` of a list of raw values. -/
def reprValList (vs : List Val) : String :=
  "[" ++ joinSep ", " (vs.map Val.pyRepr) ++ "]"

/-- Python `repr` of one summary node. -/
def reprTelNode : TelNode → String
  | .arr vs => reprValList vs
  | .obj fs =>
      "\x7b" ++ joinSep ", " (fs.map (fun fld => "'" ++ fld.1 ++ "': " ++ reprValList fld.2)) ++ "\x7d"

/-- Python `str(telemetry_summary)`: the dict printed in insertion order. -/
def reprTelemetry (entries : List (String × TelNode)) : String :=
  "\x7b" ++ joinSep ", " (entries.map (fun e => "'" ++ e.1 ++ "': " ++ reprTelNode e.2)) ++ "\x7d"

/-- `Series.dropna().tolist()`: the column's values without NaN. -/
def dropnaCol (df : Df) (c : String) : List Val :=
  (df.rows.map (fun r => r.getV c)).filter (fun v => v ≠ .nan)

/-- The `telemetry_summary` dict `analyze_raw_telemetry` builds (raises where
a `pd.DataFrame` construction or the `Temp > 0` mask raises). -/
def telemetry_summary (fd : FlightData) : Except String (List (String × TelNode)) := do
  let mut entries : List (String × TelNode) := []
  if let some t := fd.getTable? "BARO" then
    if t.truthy then
      let df ← dfOfTable t
      if df.hasCol "Alt" then
        entries := entries ++ [("altitude_m", TelNode.arr ((dropnaCol df "Alt").take 200))]
  if let some t := fd.getTable? "GPS" then
    if t.truthy then
      let df ← dfOfTable t
      if df.hasCol "NSats" && df.hasCol "HDop" then
        entries := entries ++ [("gps_quality", TelNode.obj
          [("num_satellites", (dropnaCol df "NSats").take 200),
           ("hdop", (dropnaCol df "HDop").take 200)])]
  if let some t := fd.getTable? "BAT" then
    if t.truthy then
      let df ← dfOfTable t
      let mut battery : List (String × List Val) := []
      if df.hasCol "Volt" then
        battery := battery ++ [("voltage_v", (dropnaCol df "Volt").take 200)]
      if df.hasCol "Temp" then
        if df.colHasStr "Temp" then throw "TypeError"
        battery := battery ++ [("temperature_c",
          ((((df.filterRows (fun r => (r.getV "Temp").gtQ 0)).rows.map
            (fun r => r.getV "Temp")).filter (fun v => v ≠ .nan)).take 200))]
      if !battery.isEmpty then
        entries := entries ++ [("battery", TelNode.obj battery)]
  if let some t := fd.getTable? "RCIN" then
    if t.truthy then
      let df ← dfOfTable t
      if df.hasCol "C3" then
        entries := entries ++ [("rc_throttle_input", TelNode.arr ((dropnaCol df "C3").take 200))]
  return entries

/-- `analyze_raw_telemetry`. -/
def analyze_raw_telemetry (st : FlightState) : String :=
  match st.loadedData with
  | none => "No flight data loaded. Cannot summarize telemetry."
  | some fd =>
      match telemetry_summary fd with
      | .ok entries =>
          if entries.isEmpty then
            "No relevant telemetry data (BARO, GPS, BAT, RCIN) found in the flight log for summarization."
          else
            "Here is a summary of key telemetry data points:\n" ++ reprTelemetry entries
      | .error e => "An unexpected error occurred while summarizing telemetry data: " ++ e

/-- Sample variance with `ddof=1` (`Series.std` squared); `none` (NaN) below
two observations. -/
def sampleVarQ (l : List ℚ) : Option ℚ :=
  match l with
  | [] => none
  | [_] => none
  | _ =>
      let n : ℚ := l.length
      let mean := l.sum / n
      some ((l.map (fun x => (x - mean) ^ 2)).sum / (n - 1))

/-- `check_battery_temp_stability` after its guards: stable only when
`range < 1.5` and `std < 0.75` (as variance, `< 0.5625`); a NaN std never
counts as stable. -/
def battery_stability_body (tbl : TableV) : Except String String := do
  let df ← dfOfTable tbl
  if !(df.hasCol "Temp") then
    return "Battery temperature data ('Temp' field) is not available in the BAT logs."
  if df.colHasStr "Temp" then throw "TypeError"
  let valid := (df.rows.filterMap (fun r => (r.getV "Temp").toQ?)).filter (fun q => decide (0 < q))
  match listMinQ valid, listMaxQ valid with
  | some tmin, some tmax =>
      let range := tmax - tmin
      let var := sampleVarQ valid
      let stdStr := match var with | some v => formatSqrt2 v | none => "nan"
      let stable := decide (range < 1.5) &&
        (match var with | some v => decide (v < 0.5625) | none => false)
      if stable then
        return "✅ The battery temperature remained relatively constant throughout the flight. The temperature varied by only ±" ++
          format_rat2 (range / 2) ++ "°C (Std Dev: " ++ stdStr ++ "°C)."
      return "⚠️ The battery temperature fluctuated during the flight. Range: " ++
        format_rat2 tmin ++ "°C to " ++ format_rat2 tmax ++ "°C (Total variation: " ++
        format_rat2 range ++ "°C; Std Dev: " ++ stdStr ++ "°C)."
  | _, _ =>
      return "All battery temperature values are zero or invalid (non-positive) throughout the log. The temperature sensor may have been disabled or is malfunctioning."

/-- `check_battery_temp_stability`. -/
def check_battery_temp_stability (st : FlightState) : String :=
  match st.loadedData with
  | none => "Flight data is not available. Please upload a log file first."
  | some fd =>
      match fd.getTable? "BAT" with
      | none => "No 'BAT' (battery) log data found in the flight logs."
      | some tbl =>
          if !tbl.truthy then "No 'BAT' (battery) log data found in the flight logs."
          else
            match battery_stability_body tbl with
            | .ok s => s
            | .error e =>
                "An unexpected error occurred while processing battery temperature stability: " ++ e

/-- Length of the shortest column list: `zip(*columns)` truncates to it. -/
def minLenCols : List (String × List Val) → ℕ
  | [] => 0
  | c :: rest => rest.foldl (fun m d => min m d.2.length) c.2.length

/-- The MODE-log normalization of `list_mode_changes` and the correlator:
a dict of lists is zipped row-wise (truncating), a list is framed directly,
anything else is unrecognized. -/
def modeNormalize : TableV → Option Df
  | .rows rs => some ⟨unionKeys rs, rs⟩
  | .cols cs =>
      let rs := transposeCols cs (minLenCols cs)
      some ⟨unionKeys rs, rs⟩
  | .other => none

/-- Python `==` between two cell values: numerically across int/float,
structurally otherwise (a string never equals a number). -/
def Val.pyEq : Val → Val → Bool
  | v, w =>
      match v.toQ?, w.toQ? with
      | some a, some b => a == b
      | _, _ => v == w

/-- The change-detection loop of `list_mode_changes` over the time-sorted
rows: NaN mode numbers are skipped; an entry is written whenever the mode
differs from the previous one (the default name `Mode {int(m)}` is built
eagerly, so an uncoercible mode raises even when `ModeText` exists). -/
def mode_changes_loop (hasModeText : Bool) (prev : Option Val) :
    List (Val × Row) → Except String (List String)
  | [] => .ok []
  | (tsec, r) :: rest =>
      let current := r.getV "ModeNum"
      if current == Val.nan then mode_changes_loop hasModeText prev rest
      else
        let changed := match prev with | none => true | some pv => !current.pyEq pv
        if changed then do
          let defaultName ←
            match current.pyInt? with
            | some n => pure ("Mode " ++ toString n)
            | none => throw "ValueError"
          let modeName := if hasModeText then (r.getV "ModeText").pyStr else defaultName
          let ts ← tsec.formatTime
          let entry := "• `" ++ modeName ++ "` at " ++ ts
          (mode_changes_loop hasModeText (some current) rest).map (entry :: ·)
        else mode_changes_loop hasModeText prev rest

/-- `list_mode_changes` after its guards. -/
def mode_changes_body (tbl : TableV) : Except String String := do
  match modeNormalize tbl with
  | none => return "MODE log format is not recognized."
  | some df => do
      if !(df.hasCol "ModeNum") then
        return "MODE log does not contain a 'ModeNum' field, which is required to detect changes."
      match get_time_column_and_divisor df.cols with
      | (none, _) =>
          return "No usable timestamp column (TimeUS, time_boot_ms, or TimeMS) found in MODE log."
      | (some tc, dv) => do
          let tagged ← tagTime df tc dv
          let sorted := sortTagged tagged
          let entries ← mode_changes_loop (df.hasCol "ModeText") none sorted
          if entries.isEmpty then
            return "✅ No flight mode changes were detected during the flight."
          return "### 📋 Flight Mode Changes Detected\n\n" ++ joinSep "\n" entries

/-- `list_mode_changes`. -/
def list_mode_changes (st : FlightState) : String :=
  match st.loadedData with
  | none => "MODE log is missing or empty. Cannot determine flight mode changes."
  | some fd =>
      match fd.getTable? "MODE" with
      | none => "MODE log is missing or empty. Cannot determine flight mode changes."
      | some tbl =>
          if !tbl.truthy then "MODE log is missing or empty. Cannot determine flight mode changes."
          else
            match mode_changes_body tbl with
            | .ok s => s
            | .error e => "❌ An unexpected error occurred while listing mode changes: " ++ e

/-- `ARDUPILOT_SUBSYSTEM_MAP` of the source. -/
def ardupilot_subsystem_map : List (ℤ × String) :=
  [(1, "Main system"), (2, "Radio"), (3, "Compass"), (4, "Optical Flow"),
   (5, "Failsafe: Radio"), (6, "Failsafe: Battery"), (7, "Failsafe: GPS"),
   (8, "Failsafe: GCS"), (9, "Failsafe: Fence"), (10, "Flight mode"),
   (11, "GPS"), (12, "Crash check"), (13, "Flip"), (14, "Autotune"),
   (15, "Parachute"), (16, "EKF check"), (17, "Failsafe: EKF Inav"),
   (18, "Barometer"), (19, "CPU"), (20, "Failsafe: ADSB"), (21, "Terrain"),
   (22, "Navigation"), (23, "Failsafe: Terrain"), (24, "EKF primary"),
   (25, "Thrust loss check"), (26, "Failsafe: Sensors"), (27, "Failsafe: Leak"),
   (28, "Pilot input"), (29, "Failsafe: Vibration"), (30, "Internal error"),
   (31, "Failsafe: Dead reckoning")]

/-- `ERROR_CODE_DESCRIPTIONS` of the source. -/
def error_code_descriptions : List (ℤ × String) :=
  [(0, "Cleared"), (1, "Set (error occurred)"), (2, "Recovered from error")]

/-- Subsystem lookup with the explicit unknown fallback of
`list_critical_errors`. -/
def subsysDesc (n : ℤ) : String :=
  match (ardupilot_subsystem_map.find? (fun p => p.1 == n)).map (·.2) with
  | some d => d
  | none => "Unknown Subsystem (" ++ toString n ++ ")"

/-- Error-code lookup with the `Code {n}` fallback of `list_critical_errors`. -/
def ecodeDesc (n : ℤ) : String :=
  match (error_code_descriptions.find? (fun p => p.1 == n)).map (·.2) with
  | some d => d
  | none => "Code " ++ toString n

/-- The coerced `(Subsys, ECode)` pair of a row, `none` when either field is
missing or fails `int()`. -/
def Row.errPair? (r : Row) : Option (ℤ × ℤ) :=
  match r.get? "Subsys", r.get? "ECode" with
  | some sv, some ev =>
      match sv.pyInt?, ev.pyInt? with
      | some s, some e => some (s, e)
      | _, _ => none
  | _, _ => none

/-- The row loop of `list_critical_errors`: skip a row whose pair is missing
or uncoercible, skip a pair already seen (first occurrence wins), otherwise
format its timestamp (which raises on a NaN or string raw time) and resolve
both codes with their fallbacks. -/
def critical_lines (tc : String) (dv : ℚ) :
    List Row → List (ℤ × ℤ) → Except String (List String)
  | [], _ => .ok []
  | r :: rs, seen =>
      match r.errPair? with
      | none => critical_lines tc dv rs seen
      | some (s, e) =>
          if (s, e) ∈ seen then critical_lines tc dv rs seen
          else do
            let tsec ← ((r.get? tc).getD .nan).divQ dv
            let fts ← tsec.formatTime
            let line := "- 🕒 `" ++ fts ++ "` — **Subsystem**: " ++ subsysDesc s ++
              ", **Error Code**: " ++ ecodeDesc e
            (critical_lines tc dv rs ((s, e) :: seen)).map (line :: ·)

/-- `list_critical_errors` after its guards. -/
def critical_errors_body (tbl : TableV) : Except String String := do
  let df ← dfOfTable tbl
  if df.rows.isEmpty then
    return "✅ The 'ERR' log is present, but no critical errors were recorded."
  match get_time_column_and_divisor df.cols with
  | (none, _) =>
      return "No valid timestamp column (TimeUS, time_boot_ms, or TimeMS) found in ERR log."
  | (some tc, dv) => do
      let lines ← critical_lines tc dv df.rows []
      if lines.isEmpty then
        return "✅ The 'ERR' log is present, but no distinct critical errors were recorded."
      return joinSep "\n" ("🛑 **Critical Errors Detected in Flight Log:**" :: lines)

/-- `list_critical_errors`. -/
def list_critical_errors (st : FlightState) : String :=
  match st.loadedData with
  | none => "Flight data is not available. Please upload a log file first."
  | some fd =>
      match fd.getTable? "ERR" with
      | none => "✅ No 'ERR' (error) messages found in the flight log."
      | some tbl =>
          if !tbl.truthy then "✅ No 'ERR' (error) messages found in the flight log."
          else
            match critical_errors_body tbl with
            | .ok s => s
            | .error e => "An unexpected error occurred while processing 'ERR' log: " ++ e

/-- The correlation window of `correlate_errors_with_mode_changes`: for each
error event, all mode changes with `t_err <= t_mode <= t_err + 1`, paired in
encounter order with the mode rows filtered per error. -/
def correlation_pairs {α β : Type} (errs : List (ℚ × α)) (modes : List (ℚ × β)) :
    List ((ℚ × α) × (ℚ × β)) :=
  errs.flatMap (fun e =>
    (modes.filter (fun m => decide (e.1 ≤ m.1) && decide (m.1 ≤ e.1 + 1))).map (fun m => (e, m)))

/-- `iterrows` upcast of one cell: an integer becomes the equal float. -/
def Val.upFloat : Val → Val
  | .i n => .f (n : ℚ)
  | v => v

/-- Whether every cell of the frame is numeric (no column has `object`
dtype).  With the float `time_sec` column added, `iterrows` then hands each
row back as a `float64` Series, so integer cells print as floats; one string
cell anywhere makes the row Series `object` and the cells keep their types. -/
def Df.allNumeric (df : Df) : Bool :=
  df.rows.all (fun r => r.all (fun kv =>
    match kv.2 with
    | .s _ => false
    | _ => true))

/-- One correlation report line.  The `Subsys`/`ECode`/`Mode` cells are
interpolated as `iterrows` delivers them: when the frame (with its float
`time_sec` column) is all-numeric the row Series is `float64` and integer
cells read back as floats (`11` prints `11.0`), otherwise they keep their
types; `mode_row.get("Mode", f"Mode \x7b...\x7d")` falls back through
`ModeNum` and then `'?'`. -/
def correlation_line (upErr upMode hasMode hasModeNum : Bool)
    (e : ℚ × Row) (m : ℚ × Row) : String :=
  let errCell := fun (k : String) =>
    if upErr then (e.2.getV k).upFloat else e.2.getV k
  let modeCell := fun (k : String) =>
    if upMode then (m.2.getV k).upFloat else m.2.getV k
  let defaultName := "Mode " ++ (if hasModeNum then (modeCell "ModeNum").pyStr else "?")
  let modeName := if hasMode then (modeCell "Mode").pyStr else defaultName
  "• Subsystem " ++ (errCell "Subsys").pyStr ++ ", Code " ++ (errCell "ECode").pyStr ++
    " at " ++ format_rat2 e.1 ++ "s → Mode change to " ++ modeName ++ " at " ++
    format_rat2 m.1 ++ "s (Δt = " ++ format_rat2 (m.1 - e.1) ++ "s)"

/-- `correlate_errors_with_mode_changes` after the dataset guard.  Rows whose
normalized time is NaN satisfy neither window inequality, so only the
numeric-timed rows can pair. -/
def correlate_body (fd : FlightData) : Except String String := do
  match fd.getTable? "ERR" with
  | none => return "ERR log not found in the data."
  | some errT => do
      let errDf ← dfOfTable errT
      if !(errDf.hasCol "Subsys" && errDf.hasCol "ECode") then
        return "ERR log is missing required fields (Subsys and ECode)."
      match inline_time_column errDf.cols with
      | none => return "Could not find timestamp column in ERR log."
      | some tcErr => do
          match fd.getTable? "MODE" with
          | none => return "MODE log not found in the data."
          | some modeT => do
              match modeNormalize modeT with
              | none => return "MODE log format is unrecognized."
              | some modeDf => do
                  if !(modeDf.hasCol "Mode" || modeDf.hasCol "ModeNum") then
                    return "MODE log is missing required fields (Mode or ModeNum)."
                  match inline_time_column modeDf.cols with
                  | none => return "Could not find timestamp column in MODE log."
                  | some tcMode => do
                      let errTagged ← tagTime errDf tcErr (inline_divisor tcErr)
                      let modeTagged ← tagTime modeDf tcMode (inline_divisor tcMode)
                      let errsQ := errTagged.filterMap
                        (fun p => p.1.toQ?.map (fun q => (q, p.2)))
                      let modesQ := modeTagged.filterMap
                        (fun p => p.1.toQ?.map (fun q => (q, p.2)))
                      let lines := (correlation_pairs errsQ modesQ).map (fun pr =>
                        correlation_line errDf.allNumeric modeDf.allNumeric
                          (modeDf.hasCol "Mode") (modeDf.hasCol "ModeNum")
                          pr.1 pr.2)
                      if lines.isEmpty then
                        return "No mode changes were detected within 1 second of error events."
                      return "Yes, the following mode changes closely followed error events:\n\n" ++
                        joinSep "\n" lines

/-- `correlate_errors_with_mode_changes`. -/
def correlate_errors_with_mode_changes (st : FlightState) : String :=
  match st.loadedData with
  | none => "No flight data available."
  | some fd =>
      match correlate_body fd with
      | .ok s => s
      | .error e => "❌ Error during correlation analysis: " ++ e

/-- `SUBSYSTEM_MAP` at the top of the source (the sensor-failsafe lookup). -/
def subsystem_map_small : List (ℤ × String) :=
  [(0, "Main system"), (3, "Compass"), (5, "Accelerometer"), (6, "Barometer"),
   (8, "EKF (Extended Kalman Filter)"), (22, "Gyroscope"), (24, "Board voltage"),
   (28, "GCS failsafe")]

/-- `ERROR_CODE_MAP` at the top of the source. -/
def error_code_map_small : List (ℤ × String) :=
  [(0, "No error (cleared)"), (1, "Error status"), (2, "Warning status"),
   (3, "Critical"), (4, "Failsafe activated")]

/-- Python `some_map.get(raw_value, default)`: dict lookup by numeric equality
of the raw cell value with the integer keys. -/
def lookupValQ (v : Val) (m : List (ℤ × String)) : Option String :=
  match v.toQ? with
  | some q => (m.find? (fun p => (p.1 : ℚ) == q)).map (·.2)
  | none => none

/-- One line of `detect_sensor_triggered_failsafe` (its own `m:ss.ss` time
format, not `_format_time_string`). -/
def sensor_failsafe_line (df : Df) (r : Row) : Except String String := do
  let subsystem :=
    match lookupValQ (r.getV "Subsys") subsystem_map_small with
    | some d => d
    | none => "Subsystem " ++ (r.getV "Subsys").pyStr
  let code :=
    match lookupValQ (r.getV "ECode") error_code_map_small with
    | some d => d
    | none => "Code " ++ (r.getV "ECode").pyStr
  let timeStr ←
    match inline_time_column df.cols with
    | some tf => do
        let ts ← (r.getV tf).divQ (inline_divisor tf)
        match ts.toQ? with
        | some q =>
            let minutes : ℤ := (q / 60).floor
            pure (toString minutes ++ ":" ++ format_rat2 (q - 60 * (minutes : ℚ)))
        | none => throw "ValueError"
    | none => pure "unknown time"
  return "• At " ++ timeStr ++ ", " ++ subsystem ++ " triggered a failsafe: " ++ code

/-- `detect_sensor_triggered_failsafe` after the dataset guard (it insists on
a list-shaped ERR log). -/
def sensor_failsafe_body (fd : FlightData) : Except String String := do
  match fd.getTable? "ERR" with
  | none => return "No ERR logs found. Cannot detect sensor-triggered failsafes."
  | some errT =>
      match errT with
      | .rows rs =>
          if rs.isEmpty then return "ERR log is empty or malformed."
          else do
            let df : Df := ⟨unionKeys rs, rs⟩
            if !(df.hasCol "Subsys" && df.hasCol "ECode") then
              return "ERR log is missing required fields (Subsys and ECode)."
            let triggered := (df.rows.filter
                (fun r => (r.getV "Subsys").isinQ [3, 5, 6, 8, 22])).filter
              (fun r => (r.getV "ECode").isinQ [1, 3, 4])
            if triggered.isEmpty then
              return "No sensor-triggered failsafes occurred during the flight."
            let msgs ← triggered.mapM (sensor_failsafe_line df)
            return joinSep "\n" msgs
      | _ => return "ERR log is empty or malformed."

/-- `detect_sensor_triggered_failsafe`. -/
def detect_sensor_triggered_failsafe (st : FlightState) : String :=
  match st.loadedData with
  | none => "No flight data available."
  | some fd =>
      match sensor_failsafe_body fd with
      | .ok s => s
      | .error e => "❌ Internal error while detecting sensor failsafes: " ++ e

/-- The state update of `analyze_ekf_health_status` for one EKF event
(`if ecode == 1 and start is None: ... elif ecode == 0 and start is not None
and end is None: ...`, written as a case split on the start/end state):
`ECode 1` opens the first period, the first later `ECode 0` closes it. -/
def ekfStep : (Option ℚ × Option ℚ) → (ℚ × ℤ) → (Option ℚ × Option ℚ)
  | (none, e), (t, c) => if c = 1 then (some t, e) else (none, e)
  | (some s, none), (t, c) => if c = 0 then (some s, some t) else (some s, none)
  | (some s, some e), (_, _) => (some s, some e)

/-- The single open/close period derived from the time-sorted EKF events. -/
def ekfPeriod (evs : List (ℚ × ℤ)) : Option ℚ × Option ℚ :=
  evs.foldl ekfStep (none, none)

/-- `ARDUPILOT_SUBSYSTEM_MAP.get` with the EKF analysis's own fallback. -/
def ekfSubsysDesc (n : ℤ) : String :=
  match (ardupilot_subsystem_map.find? (fun p => p.1 == n)).map (·.2) with
  | some d => d
  | none => "Unknown EKF Subsystem (" ++ toString n ++ ")"

/-- One processed EKF row: its report line and its (time, ecode) event.
`row.get('Subsys', -1)` / `row.get('ECode', -1)` act on the `iterrows`
Series, which is indexed by the frame's columns: the `-1` default applies
only when the whole column is absent from the frame; a present column whose
cell this row lacks holds NaN, and `int(NaN)` raises (as does any other
uncoercible cell), sending the tool to its unexpected-error reply. -/
def ekf_row_info (cols : List String) (p : Val × Row) : Except String (String × (ℚ × ℤ)) := do
  let subsys ←
    match (if cols.contains "Subsys" then p.2.getV "Subsys" else .i (-1)).pyInt? with
    | some n => pure n
    | none => throw "ValueError"
  let ecode ←
    match (if cols.contains "ECode" then p.2.getV "ECode" else .i (-1)).pyInt? with
    | some n => pure n
    | none => throw "ValueError"
  match p.1.toQ? with
  | some tq =>
      pure ("- EKF Event: " ++ ekfSubsysDesc subsys ++ ", " ++ ecodeDesc ecode ++
        " at `" ++ format_time_string tq ++ "`", (tq, ecode))
  | none => throw "ValueError"

/-- `analyze_ekf_health_status` after its guards. -/
def ekf_health_body (tbl : TableV) : Except String String := do
  let df ← dfOfTable tbl
  match get_time_column_and_divisor df.cols with
  | (none, _) =>
      return "No valid timestamp column (TimeUS, time_boot_ms, or TimeMS) found in ERR log."
  | (some tc, dv) => do
      if !(df.hasCol "Subsys") then
        return "Error: Missing expected column in ERR data for EKF analysis: ''Subsys''. Please ensure log integrity."
      let ekfRows := df.filterRows (fun r => (r.getV "Subsys").isinQ [16, 24])
      if ekfRows.rows.isEmpty then
        return "✅ No EKF-related errors (Subsystem 16 or 24) found during the flight."
      let tagged ← tagTime ekfRows tc dv
      let sorted := sortTagged tagged
      let infos ← sorted.mapM (ekf_row_info df.cols)
      let eventLines := infos.map Prod.fst
      let period := ekfPeriod (infos.map Prod.snd)
      let summaryTail :=
        match period with
        | (some s, some e) =>
            "\n**Summary**: EKF entered an error state at `" ++ format_time_string s ++
              "` and recovered at `" ++ format_time_string e ++
              "`, lasting approximately **" ++ format_rat2 (e - s) ++ " seconds**."
        | (some s, none) =>
            "\n**Summary**: EKF entered an error state at `" ++ format_time_string s ++
              "`, but no recovery event (ECode 0) was explicitly logged within the available data."
        | (none, _) =>
            "\nNo clear EKF error start or recovery events were found matching the criteria."
      return joinSep "\n" (["---", "## EKF Health Status Analysis"] ++ eventLines ++ [summaryTail])

/-- `analyze_ekf_health_status`. -/
def analyze_ekf_health_status (st : FlightState) : String :=
  match st.loadedData with
  | none => "Flight data is not available. Please upload a log file first."
  | some fd =>
      match fd.getTable? "ERR" with
      | none => "No 'ERR' log data found to analyze EKF health status."
      | some tbl =>
          if !tbl.truthy then "No 'ERR' log data found to analyze EKF health status."
          else
            match ekf_health_body tbl with
            | .ok s => s
            | .error e => "❌ An unexpected error occurred while analyzing EKF health: " ++ e

/-- `analyze_gps_health`: the three GPS summaries concatenated (the two bare
literals of the source glue to `---## ...`). -/
def analyze_gps_health (st : FlightState) : String :=
  "---## GPS Signal Health Summary\n\n📍 **First GPS Degradation Event**: " ++
    find_first_gps_loss st ++ "\n\n⏱️ **Total Degradation Duration**: " ++
    get_gps_degradation_duration st ++
    "\n\n📊 **Raw GPS Telemetry Snapshot for Further Analysis**:\n" ++
    analyze_raw_telemetry st

/-- The `"\n\n".join(...) or ...` fallback text of `summarize_all_anomalies`. -/
def noAnomaliesMsg : String :=
  "✅ No significant anomalies were detected in the flight logs."

/-- The RC section of `summarize_all_anomalies`: tagged as critical RC Signal
Loss exactly when the classifier's text contains `"loss"` case-insensitively. -/
def rc_tag_section (rcStatus : String) : String :=
  if pyIn "loss" (pyLower rcStatus) then "🟥 **RC Signal Loss:**\n" ++ rcStatus
  else "🟨 **RC Signal Check:**\n" ++ rcStatus

/-- The section list `summarize_all_anomalies` builds: critical errors, EKF,
altitude drops and battery only when their textual checks fire; the GPS and
RC sections always. -/
def summarize_sections (st : FlightState) : List String :=
  let errSummary := list_critical_errors st
  let ekfStatus := analyze_ekf_health_status st
  let dropCheck := detect_unusual_altitude_drops 10 5 st
  let batteryCheck := check_battery_temp_stability st
  (if pyIn "Subsystem" errSummary then
    ["🟥 **Critical Errors (Subsystem Faults):**\n" ++ errSummary] else []) ++
  (("🟧 **GPS Signal Anomalies:**\n" ++ analyze_gps_health st) ::
    rc_tag_section (check_rc_signal_loss st) ::
    ((if pyIn "error" (pyLower ekfStatus) then
      ["🟧 **EKF Health Warnings:**\n" ++ ekfStatus] else []) ++
    ((if pyIn "Drop of" dropCheck then
      ["🟨 **Altitude Drop Detected:**\n" ++ dropCheck] else []) ++
    (if pyIn "fluctuated" batteryCheck || pyIn "invalid" batteryCheck then
      ["🟨 **Battery Temperature:**\n" ++ batteryCheck] else []))))

/-- `summarize_all_anomalies`. -/
def summarize_all_anomalies (st : FlightState) : String :=
  match st.loadedData with
  | none => "⚠️ Flight data not found. Please upload a valid log file first."
  | some fd =>
      let joined := joinSep "\n\n" (summarize_sections (some fd))
      if joined = "" then noAnomaliesMsg else joined

/-- `all_tools` in source order; `lookup_ardupilot_documentation` (a network
documentation fetch, outside the analysis engine) is the one entry with no
dataset signature and is not part of this embedding. -/
def all_tools : List (String × (FlightState → String)) :=
  [("get_highest_altitude", get_highest_altitude),
   ("find_first_gps_loss", find_first_gps_loss),
   ("get_max_battery_temperature", get_max_battery_temperature),
   ("get_total_flight_time", get_total_flight_time),
   ("list_critical_errors", list_critical_errors),
   ("check_rc_signal_loss", check_rc_signal_loss),
   ("analyze_flight_anomalies", analyze_flight_anomalies),
   ("get_gps_degradation_duration", get_gps_degradation_duration),
   ("detect_unusual_altitude_drops", detect_unusual_altitude_drops 10 5),
   ("analyze_raw_telemetry", analyze_raw_telemetry),
   ("check_battery_temp_stability", check_battery_temp_stability),
   ("list_mode_changes", list_mode_changes),
   ("analyze_gps_health", analyze_gps_health),
   ("correlate_errors_with_mode_changes", correlate_errors_with_mode_changes),
   ("detect_sensor_triggered_failsafe", detect_sensor_triggered_failsafe),
   ("analyze_ekf_health_status", analyze_ekf_health_status),
   ("summarize_all_anomalies", summarize_all_anomalies)]

/-- The no-data reply of each tool (in `all_tools` order). -/
def no_data_replies : List String :=
  ["Flight data is not available. Please upload a log file first.",
   "Flight data is not available. Please upload a log file first.",
   "Flight data is not available. Please upload a log file first.",
   "Flight data is not available. Please upload a log file first.",
   "Flight data is not available. Please upload a log file first.",
   "Flight data is not available. Please upload a log file first.",
   "To analyze flight anomalies, please ask about specific areas of concern, such as 'list critical errors', 'when did the GPS signal get lost?', or 'were there any unusual altitude drops?'",
   "Flight data is not available. Please upload a log file first.",
   "Flight data is not available. Please upload a log file first.",
   "No flight data loaded. Cannot summarize telemetry.",
   "Flight data is not available. Please upload a log file first.",
   "MODE log is missing or empty. Cannot determine flight mode changes.",
   "---## GPS Signal Health Summary\n\n📍 **First GPS Degradation Event**: Flight data is not available. Please upload a log file first.\n\n⏱️ **Total Degradation Duration**: Flight data is not available. Please upload a log file first.\n\n📊 **Raw GPS Telemetry Snapshot for Further Analysis**:\nNo flight data loaded. Cannot summarize telemetry.",
   "No flight data available.",
   "No flight data available.",
   "Flight data is not available. Please upload a log file first.",
   "⚠️ Flight data not found. Please upload a valid log file first."]

set_option maxRecDepth 100000

/-- C1: every analysis operation of `all_tools` is a total function into
strings (so by construction in this embedding), and on the absent dataset as
well as on the empty dataset each returns its explanatory no-data message;
a missing required table likewise yields the explanatory not-found reply of
the respective classifier, not a failure. -/
theorem all_tools_total_explanatory_without_data :
    (all_tools.map (fun t => t.2 none) = no_data_replies) ∧
    (all_tools.map (fun t => t.2 (some [])) = no_data_replies) ∧
    (∀ fd : FlightData, fd ≠ [] → fd.getTable? "BARO" = none →
      detect_unusual_altitude_drops 10 5 (some fd) =
        "BARO log data not found in the flight data. Cannot detect altitude drops.") ∧
    (∀ fd : FlightData, fd ≠ [] → fd.getTable? "GPS" = none →
      find_first_gps_loss (some fd) =
        "No 'GPS' log data found in the flight log. Cannot assess GPS signal quality.") ∧
    (∀ fd : FlightData, fd ≠ [] → fd.getTable? "ERR" = none →
      list_critical_errors (some fd) =
        "✅ No 'ERR' (error) messages found in the flight log.") ∧
    (∀ fd : FlightData, fd ≠ [] → fd.getTable? "BAT" = none →
      get_max_battery_temperature (some fd) =
        "No 'BAT' (battery) log data found in the flight logs.") := by
  refine ⟨by decide, by decide, ?_, ?_, ?_, ?_⟩ <;>
    · intro fd hne habs
      cases fd with
      | nil => exact absurd rfl hne
      | cons hd tl =>
          simp [detect_unusual_altitude_drops, find_first_gps_loss, list_critical_errors,
            get_max_battery_temperature, FlightState.loadedData, habs]

/-- C1 witness: the theorem applied at the absent-table dataset `[("X", [])]`. -/
theorem all_tools_total_explanatory_without_data_witness :
    detect_unusual_altitude_drops 10 5 (some [("X", TableV.rows [])]) =
      "BARO log data not found in the flight data. Cannot detect altitude drops." ∧
    find_first_gps_loss (some [("X", TableV.rows [])]) =
      "No 'GPS' log data found in the flight log. Cannot assess GPS signal quality." :=
  ⟨all_tools_total_explanatory_without_data.2.2.1 _ (by decide) (by decide),
   all_tools_total_explanatory_without_data.2.2.2.1 _ (by decide) (by decide)⟩

/-- EV table with the RC-failsafe event id 10 at t = 3.0 s. -/
def dsRcEv : FlightData := [("EV", .rows [[("TimeUS", .i 3000000), ("Id", .i 10)]])]

/-- No EV table; MODE transitions into failsafe mode 6 at t = 7.5 s. -/
def dsRcMode : FlightData := [("MODE", .rows [[("TimeUS", .i 7500000), ("Mode", .i 6)]])]

/-- C6: RC loss is detected primarily from `EV.Id = 10` rows, reporting the
first such row's timestamp (id 10 at t = 3.0 s reports `00:03`); the MODE
inference runs exactly when the EV table is absent or holds no rows, and its
report is explicitly labeled an inference (mode 6 at t = 7.5 s reports an
inferred detection at `00:07`). -/
theorem rc_signal_loss_primary_and_fallback :
    (∀ (fd : FlightData) (evt : TableV) (df : Df) (r : Row) (rest : List Row)
        (tc : String) (dv q : ℚ),
        fd ≠ [] → fd.getTable? "EV" = some evt → evt.truthy = true →
        dfOfTable evt = .ok df → df.hasCol "Id" = true →
        df.rows.filter (fun r => (r.getV "Id").eqQ 10) = r :: rest →
        get_time_column_and_divisor df.cols = (some tc, dv) →
        (r.getV tc).divQ dv = .ok (.f q) →
        check_rc_signal_loss (some fd) =
          "✅ RC signal loss detected! The first RC Failsafe (EV.Id = 10) occurred at " ++
            format_time_string q ++ ".") ∧
    (∀ fd : FlightData, fd ≠ [] →
        (fd.getTable? "EV" = none ∨
          ∃ evt, fd.getTable? "EV" = some evt ∧ evt.truthy = false) →
        check_rc_signal_loss (some fd) = rc_mode_fallback fd) ∧
    (∀ (fd : FlightData) (mt : TableV) (df : Df) (r : Row) (rest : List Row)
        (tc : String) (dv q : ℚ),
        fd.getTable? "MODE" = some mt → mt.truthy = true →
        dfOfTable mt = .ok df → df.hasCol "Mode" = true →
        df.rows.filter (fun r => (r.getV "Mode").isinQ [5, 6, 9, 11]) = r :: rest →
        get_time_column_and_divisor df.cols = (some tc, dv) →
        (r.getV tc).divQ dv = .ok (.f q) →
        rc_mode_fallback fd =
          "⚠️ No 'EV' log found. However, based on 'MODE' changes to known failsafe modes (e.g., RTL, Loiter, Auto, Land), an RC failsafe is suspected around " ++
            format_time_string q ++ ". This is an inference, not a direct failsafe event record.") ∧
    (check_rc_signal_loss (some dsRcEv) =
      "✅ RC signal loss detected! The first RC Failsafe (EV.Id = 10) occurred at 00:03 (3.00 seconds raw).") ∧
    (check_rc_signal_loss (some dsRcMode) =
      "⚠️ No 'EV' log found. However, based on 'MODE' changes to known failsafe modes (e.g., RTL, Loiter, Auto, Land), an RC failsafe is suspected around 00:07 (7.50 seconds raw). This is an inference, not a direct failsafe event record.") := by
  refine ⟨?_, ?_, ?_, by decide, by decide⟩
  · intro fd evt df r rest tc dv q hne hev ht hdf hid hfil htc hdq
    cases fd with
    | nil => exact absurd rfl hne
    | cons hd tl =>
        simp [check_rc_signal_loss, FlightState.loadedData, hev, ht, rc_ev_body, hdf,
          Bind.bind, Except.bind, Pure.pure, Except.pure, hid, Df.filterRows, hfil, htc,
          hdq, Val.formatTime]
  · intro fd hne hcase
    cases fd with
    | nil => exact absurd rfl hne
    | cons hd tl =>
        rcases hcase with h | ⟨evt, hev, ht⟩
        · simp [check_rc_signal_loss, FlightState.loadedData, h]
        · simp [check_rc_signal_loss, FlightState.loadedData, hev, ht]
  · intro fd mt df r rest tc dv q hmt ht hdf hmode hfil htc hdq
    simp [rc_mode_fallback, hmt, ht, rc_mode_body, hdf, Bind.bind, Except.bind,
      Pure.pure, Except.pure, hmode, Df.filterRows, hfil, htc, hdq, Val.formatTime]

/-- C6 witness: the primary-path clause applied at the concrete EV dataset. -/
theorem rc_signal_loss_primary_and_fallback_witness :
    check_rc_signal_loss (some dsRcEv) =
      "✅ RC signal loss detected! The first RC Failsafe (EV.Id = 10) occurred at " ++
        format_time_string 3 ++ "." :=
  rc_signal_loss_primary_and_fallback.1 dsRcEv (.rows [[("TimeUS", .i 3000000), ("Id", .i 10)]])
    ⟨["TimeUS", "Id"], [[("TimeUS", .i 3000000), ("Id", .i 10)]]⟩
    [("TimeUS", .i 3000000), ("Id", .i 10)] [] "TimeUS" 1000000 3
    (by decide) rfl rfl rfl rfl (by decide) rfl rfl

/-- Once a period is open, later events never change its start. -/
theorem ekf_fold_fst_some (l : List (ℚ × ℤ)) (t : ℚ) (e : Option ℚ) :
    (l.foldl ekfStep (some t, e)).1 = some t := by
  induction l generalizing e with
  | nil => rfl
  | cons hd tl ih =>
      cases e with
      | none =>
          simp only [List.foldl_cons, ekfStep]
          by_cases h : hd.2 = 0
          · rw [if_pos h]; exact ih _
          · rw [if_neg h]; exact ih _
      | some u =>
          simp only [List.foldl_cons, ekfStep]
          exact ih _

/-- Once the period is open and closed, the state is final. -/
theorem ekf_fold_fixed (l : List (ℚ × ℤ)) (t u : ℚ) :
    l.foldl ekfStep (some t, some u) = (some t, some u) := by
  induction l with
  | nil => rfl
  | cons hd tl ih =>
      simp only [List.foldl_cons, ekfStep]
      exact ih

/-- With the period open, the close time is the first status-0 event. -/
theorem ekf_fold_open_snd (l : List (ℚ × ℤ)) (t : ℚ) :
    (l.foldl ekfStep (some t, none)).2 = (l.find? (fun p => p.2 == 0)).map Prod.fst := by
  induction l with
  | nil => rfl
  | cons hd tl ih =>
      by_cases h0 : hd.2 = 0
      · simp only [List.foldl_cons, ekfStep]
        rw [if_pos h0, ekf_fold_fixed]
        simp [List.find?_cons, h0]
      · simp only [List.foldl_cons, ekfStep]
        rw [if_neg h0, ih]
        simp [List.find?_cons, h0]

/-- Without any status-1 event the state never opens. -/
theorem ekf_fold_no_open (l : List (ℚ × ℤ)) (h : ∀ y ∈ l, y.2 ≠ 1) :
    l.foldl ekfStep (none, none) = (none, none) := by
  induction l with
  | nil => rfl
  | cons hd tl ih =>
      have hhd : hd.2 ≠ 1 := h hd (by simp)
      simp only [List.foldl_cons, ekfStep]
      rw [if_neg hhd]
      exact ih (fun y hy => h y (by simp [hy]))

/-- ERR table with an EKF open at t = 1 s and a close at t = 2 s. -/
def dsEkf : FlightData := [("ERR", .rows
  [[("TimeUS", .i 1000000), ("Subsys", .i 16), ("ECode", .i 1)],
   [("TimeUS", .i 2000000), ("Subsys", .i 16), ("ECode", .i 0)]])]

/-- ERR table with an EKF open at t = 1 s and no close. -/
def dsEkfOpen : FlightData := [("ERR", .rows
  [[("TimeUS", .i 1000000), ("Subsys", .i 16), ("ECode", .i 1)]])]

/-- ERR table whose `ECode` column exists but whose second EKF row lacks the
cell: pandas fills it with NaN and `int(NaN)` raises. -/
def dsEkfNan : FlightData := [("ERR", .rows
  [[("TimeUS", .i 1000000), ("Subsys", .i 16), ("ECode", .i 1)],
   [("TimeUS", .i 2000000), ("Subsys", .i 16)]])]

/-- ERR table with no `ECode` column at all: `row.get('ECode', -1)` then
really does default to `-1`. -/
def dsEkfNoEcode : FlightData := [("ERR", .rows
  [[("TimeUS", .i 1000000), ("Subsys", .i 16)]])]

/-- C7: the EKF analysis keeps exactly the rows with subsystem 16 or 24; over
the time-sorted events the derived period opens at the first status-1 event
and closes at the first status-0 event after it (no status-1 event, no
period); the example `[(1,16,1),(2,16,0)]` reports both timestamps and the
1-second duration, and a lone open event reports an unresolved error with no
duration.  A row whose `ECode` cell is NaN under a present `ECode` column
aborts the analysis into the unexpected-error reply (`int(NaN)` raises),
while a frame with no `ECode` column lists its events with the `-1`
default. -/
theorem ekf_health_period_extraction :
    (∀ (df : Df) (r : Row),
      r ∈ (df.filterRows (fun r => (r.getV "Subsys").isinQ [16, 24])).rows ↔
        r ∈ df.rows ∧ (r.getV "Subsys").isinQ [16, 24] = true) ∧
    (∀ evs : List (ℚ × ℤ),
      (ekfPeriod evs).1 = (evs.find? (fun p => p.2 == 1)).map Prod.fst) ∧
    (∀ (l1 l2 : List (ℚ × ℤ)) (x : ℚ × ℤ),
      (∀ y ∈ l1, y.2 ≠ 1) → x.2 = 1 →
      (ekfPeriod (l1 ++ x :: l2)).2 = (l2.find? (fun p => p.2 == 0)).map Prod.fst) ∧
    (∀ evs : List (ℚ × ℤ), (∀ y ∈ evs, y.2 ≠ 1) → ekfPeriod evs = (none, none)) ∧
    (analyze_ekf_health_status (some dsEkf) =
      "---\n## EKF Health Status Analysis\n- EKF Event: EKF check, Set (error occurred) at `00:01 (1.00 seconds raw)`\n- EKF Event: EKF check, Cleared at `00:02 (2.00 seconds raw)`\n\n**Summary**: EKF entered an error state at `00:01 (1.00 seconds raw)` and recovered at `00:02 (2.00 seconds raw)`, lasting approximately **1.00 seconds**.") ∧
    (analyze_ekf_health_status (some dsEkfOpen) =
      "---\n## EKF Health Status Analysis\n- EKF Event: EKF check, Set (error occurred) at `00:01 (1.00 seconds raw)`\n\n**Summary**: EKF entered an error state at `00:01 (1.00 seconds raw)`, but no recovery event (ECode 0) was explicitly logged within the available data.") ∧
    (∃ msg, analyze_ekf_health_status (some dsEkfNan) =
      "❌ An unexpected error occurred while analyzing EKF health: " ++ msg) ∧
    (analyze_ekf_health_status (some dsEkfNoEcode) =
      "---\n## EKF Health Status Analysis\n- EKF Event: EKF check, Code -1 at `00:01 (1.00 seconds raw)`\n\nNo clear EKF error start or recovery events were found matching the criteria.") := by
  refine ⟨?_, ?_, ?_, ?_, by decide, by decide, ⟨"ValueError", by decide⟩, by decide⟩
  · intro df r
    simp [Df.filterRows, List.mem_filter]
  · intro evs
    induction evs with
    | nil => rfl
    | cons hd tl ih =>
        by_cases h1 : hd.2 = 1
        · simp only [ekfPeriod, List.foldl_cons, ekfStep]
          rw [if_pos h1, ekf_fold_fst_some]
          simp [List.find?_cons, h1]
        · simp only [ekfPeriod, List.foldl_cons, ekfStep] at ih ⊢
          rw [if_neg h1, ih]
          simp [List.find?_cons, h1]
  · intro l1 l2 x h1 hx
    unfold ekfPeriod
    rw [List.foldl_append, ekf_fold_no_open l1 h1]
    simp only [List.foldl_cons, ekfStep]
    rw [if_pos hx]
    exact ekf_fold_open_snd l2 x.1
  · intro evs h
    exact ekf_fold_no_open evs h

/-- C7 witness: the open/close clause applied at the two-event example. -/
theorem ekf_health_period_extraction_witness :
    (ekfPeriod ([] ++ ((1 : ℚ), (1 : ℤ)) :: [((2 : ℚ), (0 : ℤ))])).2 = some 2 := by
  rw [ekf_health_period_extraction.2.2.1 [] [((2 : ℚ), (0 : ℤ))] ((1 : ℚ), (1 : ℤ))
    (by simp) rfl]
  rfl

/-- ERR at t = 10.0 s; MODE changes at t = 10.4 s and t = 9.9 s. -/
def dsCorr : FlightData :=
  [("ERR", .rows [[("TimeUS", .i 10000000), ("Subsys", .i 11), ("ECode", .i 2)]]),
   ("MODE", .rows [[("TimeUS", .i 10400000), ("Mode", .i 6)],
                   [("TimeUS", .i 9900000), ("Mode", .i 3)]])]

/-- C4: the correlator pairs an error with exactly the mode changes whose
normalized time lies in `[t_err, t_err + 1]`; a mode change earlier than the
error is never paired; the worked example pairs t=10.0 with t=10.4 only and
reports the signed delta +0.40 s (its all-numeric frames are upcast by
`iterrows`, so the integer cells print as `11.0`, `2.0` and `6.0`). -/
theorem correlator_one_directional_window :
    (∀ (errs modes : List (ℚ × ℕ)) (e m : ℚ × ℕ),
      (e, m) ∈ correlation_pairs errs modes ↔
        e ∈ errs ∧ m ∈ modes ∧ e.1 ≤ m.1 ∧ m.1 ≤ e.1 + 1) ∧
    (∀ (errs modes : List (ℚ × ℕ)) (e m : ℚ × ℕ),
      m.1 < e.1 → (e, m) ∉ correlation_pairs errs modes) ∧
    (correlation_pairs [((10 : ℚ), (0 : ℕ))] [((10.4 : ℚ), (0 : ℕ)), ((9.9 : ℚ), (1 : ℕ))] =
      [(((10 : ℚ), (0 : ℕ)), ((10.4 : ℚ), (0 : ℕ)))]) ∧
    ((10.4 : ℚ) - 10 = 0.4) ∧
    (correlate_errors_with_mode_changes (some dsCorr) =
      "Yes, the following mode changes closely followed error events:\n\n• Subsystem 11.0, Code 2.0 at 10.00s → Mode change to 6.0 at 10.40s (Δt = 0.40s)") := by
  have key : ∀ (errs modes : List (ℚ × ℕ)) (e m : ℚ × ℕ),
      (e, m) ∈ correlation_pairs errs modes ↔
        e ∈ errs ∧ m ∈ modes ∧ e.1 ≤ m.1 ∧ m.1 ≤ e.1 + 1 := by
    intro errs modes e m
    constructor
    · intro h
      rcases List.mem_flatMap.mp h with ⟨e', he', hm⟩
      rcases List.mem_map.mp hm with ⟨m', hm', heq⟩
      rw [Prod.mk.injEq] at heq
      rcases heq with ⟨he2, hm2⟩
      subst he2; subst hm2
      rcases List.mem_filter.mp hm' with ⟨hmem, hcond⟩
      simp only [Bool.and_eq_true, decide_eq_true_eq] at hcond
      exact ⟨he', hmem, hcond.1, hcond.2⟩
    · rintro ⟨he, hm, h1, h2⟩
      exact List.mem_flatMap.mpr
        ⟨e, he, List.mem_map.mpr ⟨m, List.mem_filter.mpr ⟨hm, by simp [h1, h2]⟩, rfl⟩⟩
  refine ⟨key, ?_, by decide, by decide, by decide⟩
  intro errs modes e m hlt hmem
  have h := (key errs modes e m).mp hmem
  exact absurd h.2.2.1 (not_le.mpr hlt)

/-- C4 witness: the window clause instantiated at the worked example. -/
theorem correlator_one_directional_window_witness :
    (((10 : ℚ), (0 : ℕ)), ((9.9 : ℚ), (1 : ℕ))) ∉
      correlation_pairs [((10 : ℚ), (0 : ℕ))] [((10.4 : ℚ), (0 : ℕ)), ((9.9 : ℚ), (1 : ℕ))] :=
  correlator_one_directional_window.2.1 _ _ _ _ (by decide)

/-- A dataset on which every classifier invoked by `summarize_all_anomalies`
reports its clean/no-finding text: strong GPS, flat altitude, constant valid
battery temperature, an EV log without the failsafe id, and no ERR log. -/
def dsClean : FlightData :=
  [("GPS", .rows [[("TimeUS", .i 1000000), ("NSats", .i 10), ("FixType", .i 3)],
                  [("TimeUS", .i 2000000), ("NSats", .i 10), ("FixType", .i 3)]]),
   ("BARO", .rows [[("TimeUS", .i 1000000), ("Alt", .i 50)],
                   [("TimeUS", .i 2000000), ("Alt", .i 50)]]),
   ("BAT", .rows [[("TimeUS", .i 1000000), ("Temp", .i 20)],
                  [("TimeUS", .i 2000000), ("Temp", .i 20)]]),
   ("EV", .rows [[("TimeUS", .i 1500000), ("Id", .i 3)]])]

/-- C10: the RC section of the anomaly summary carries the critical
`RC Signal Loss` tag exactly when the RC classifier's text contains `loss`
case-insensitively — so the clean EV reply (which contains "signal loss") is
tagged critical, while the MODE-inferred failsafe detection (no "loss" in its
text) gets the non-critical `RC Signal Check` tag. -/
theorem rc_section_loss_tagging :
    (∀ s : String,
      rc_tag_section s = "🟥 **RC Signal Loss:**\n" ++ s ↔
        pyIn "loss" (pyLower s) = true) ∧
    (check_rc_signal_loss (some dsClean) =
      "✅ 'EV' log is present, and no RC signal loss (EV.Id = 10) was detected.") ∧
    (rc_tag_section (check_rc_signal_loss (some dsClean)) =
      "🟥 **RC Signal Loss:**\n✅ 'EV' log is present, and no RC signal loss (EV.Id = 10) was detected.") ∧
    (rc_tag_section (check_rc_signal_loss (some dsClean)) ∈ summarize_sections (some dsClean)) ∧
    (check_rc_signal_loss (some dsRcMode) =
      "⚠️ No 'EV' log found. However, based on 'MODE' changes to known failsafe modes (e.g., RTL, Loiter, Auto, Land), an RC failsafe is suspected around 00:07 (7.50 seconds raw). This is an inference, not a direct failsafe event record.") ∧
    (pyIn "loss" (pyLower (check_rc_signal_loss (some dsRcMode))) = false) ∧
    (rc_tag_section (check_rc_signal_loss (some dsRcMode)) =
      "🟨 **RC Signal Check:**\n" ++ check_rc_signal_loss (some dsRcMode)) := by
  refine ⟨?_, by decide, by decide, by decide, by decide, by decide, by decide⟩
  intro s
  constructor
  · intro heq
    by_cases h : pyIn "loss" (pyLower s) = true
    · exact h
    · exfalso
      have hsec : rc_tag_section s = "🟨 **RC Signal Check:**\n" ++ s := by
        unfold rc_tag_section
        rw [if_neg h]
      rw [hsec] at heq
      have hlen := congrArg String.length heq
      rw [String.length_append, String.length_append] at hlen
      have e1 : ("🟨 **RC Signal Check:**\n" : String).length = 23 := rfl
      have e2 : ("🟥 **RC Signal Loss:**\n" : String).length = 22 := rfl
      rw [e1, e2] at hlen
      omega
  · intro h
    unfold rc_tag_section
    rw [if_pos h]

/-- The joined report starts with the first section's text. -/
theorem joinSep_data_cons (sep a : String) (l : List String) :
    ∃ t : List Char, (joinSep sep (a :: l)).data = a.data ++ t := by
  cases l with
  | nil => exact ⟨[], by simp [joinSep]⟩
  | cons b bs =>
      exact ⟨sep.data ++ (joinSep sep (b :: bs)).data, by
        simp [joinSep, String.data_append, List.append_assoc]⟩

/-- C9 (amended): `summarize_all_anomalies` appends the GPS-health section
(and the RC section) unconditionally, so with any dataset loaded the joined
report is never empty and the `no anomalies` sentinel is never returned — a
fully clean dataset yields the concatenation of the always-present sections,
not the single clean message. -/
theorem summarize_never_returns_no_anomalies (fd : FlightData) (hne : fd ≠ []) :
    ("🟧 **GPS Signal Anomalies:**\n" ++ analyze_gps_health (some fd)) ∈
        summarize_sections (some fd) ∧
      summarize_all_anomalies (some fd) ≠ noAnomaliesMsg := by
  have hhead : ∃ c, (joinSep "\n\n" (summarize_sections (some fd))).data.head? = some c ∧
      (c = '🟥' ∨ c = '🟧') := by
    by_cases hE : pyIn "Subsystem" (list_critical_errors (some fd)) = true
    · simp only [summarize_sections]
      rw [if_pos hE, List.singleton_append]
      obtain ⟨t, ht⟩ := joinSep_data_cons "\n\n"
        ("🟥 **Critical Errors (Subsystem Faults):**\n" ++ list_critical_errors (some fd)) _
      rw [ht, String.data_append]
      exact ⟨'🟥', rfl, Or.inl rfl⟩
    · simp only [summarize_sections]
      rw [if_neg hE, List.nil_append]
      obtain ⟨t, ht⟩ := joinSep_data_cons "\n\n"
        ("🟧 **GPS Signal Anomalies:**\n" ++ analyze_gps_health (some fd)) _
      rw [ht, String.data_append]
      exact ⟨'🟧', rfl, Or.inr rfl⟩
  obtain ⟨c, hc, hcor⟩ := hhead
  have hne2 : joinSep "\n\n" (summarize_sections (some fd)) ≠ "" := by
    intro h
    rw [h] at hc
    exact Option.noConfusion hc
  have hneq : joinSep "\n\n" (summarize_sections (some fd)) ≠ noAnomaliesMsg := by
    intro h
    rw [h] at hc
    have hca : c = '✅' := by
      have : (some '✅' : Option Char) = some c := by rw [← hc]; rfl
      exact (Option.some.injEq _ _ ▸ this).symm
    rcases hcor with h1 | h1 <;> rw [h1] at hca <;> exact absurd hca (by decide)
  constructor
  · simp [summarize_sections]
  · cases fd with
    | nil => exact absurd rfl hne
    | cons hd tl =>
        simp only [summarize_all_anomalies, FlightState.loadedData, List.isEmpty_cons,
          Bool.false_eq_true, if_false]
        rw [if_neg hne2]
        exact hneq

/-- C9 witness: the amended claim applied to the clean dataset. -/
theorem summarize_never_returns_no_anomalies_witness :
    summarize_all_anomalies (some dsClean) ≠ noAnomaliesMsg :=
  (summarize_never_returns_no_anomalies dsClean (by decide)).2

/-- C9 counterexample: on `dsClean` every classifier invoked by the
aggregator reports its clean/no-finding text, yet `summarize_all_anomalies`
returns the concatenated GPS and RC sections, not the single
`no anomalies` result the claim promises. -/
theorem summarize_clean_dataset_counterexample :
    list_critical_errors (some dsClean) =
      "✅ No 'ERR' (error) messages found in the flight log." ∧
    find_first_gps_loss (some dsClean) =
      "GPS signal remained strong throughout the flight (no degradation events found based on NSats < 6 or FixType < 2)." ∧
    get_gps_degradation_duration (some dsClean) =
      "GPS signal remained strong throughout the flight (NSats was always ≥ 6)." ∧
    check_rc_signal_loss (some dsClean) =
      "✅ 'EV' log is present, and no RC signal loss (EV.Id = 10) was detected." ∧
    analyze_ekf_health_status (some dsClean) =
      "No 'ERR' log data found to analyze EKF health status." ∧
    detect_unusual_altitude_drops 10 5 (some dsClean) =
      "✅ No unusual altitude drops were detected during the flight based on the given criteria." ∧
    check_battery_temp_stability (some dsClean) =
      "✅ The battery temperature remained relatively constant throughout the flight. The temperature varied by only ±0.00°C (Std Dev: 0.00°C)." ∧
    summarize_all_anomalies (some dsClean) =
      "🟧 **GPS Signal Anomalies:**\n" ++ analyze_gps_health (some dsClean) ++ "\n\n" ++
        rc_tag_section (check_rc_signal_loss (some dsClean)) ∧
    summarize_all_anomalies (some dsClean) ≠
      "✅ No significant anomalies were detected in the flight logs." := by
  refine ⟨by decide, by decide, by decide, by decide, by decide, by decide, by decide, ?_, by decide⟩
  decide

/-- C3: time-field detection prefers `TimeUS` (divisor 1e6) whenever present,
otherwise one of the millisecond variants with divisor 1e3, otherwise none —
and the inline selection of the correlator/failsafe classifiers agrees on the
microsecond-first priority, on which tables have a time field at all, and on
the divisor; every time-dependent classifier answers a table with none of
the three fields with its no-timestamp message instead of raising. -/
theorem time_field_priority_and_no_timestamp :
    (∀ cols : List String, "TimeUS" ∈ cols →
      get_time_column_and_divisor cols = (some "TimeUS", 1000000) ∧
        inline_time_column cols = some "TimeUS") ∧
    (∀ cols : List String, "TimeUS" ∉ cols →
      ("time_boot_ms" ∈ cols ∨ "TimeMS" ∈ cols) →
      (∃ c, get_time_column_and_divisor cols = (some c, 1000) ∧
        (c = "time_boot_ms" ∨ c = "TimeMS") ∧ c ∈ cols) ∧
      (∃ c, inline_time_column cols = some c ∧
        (c = "time_boot_ms" ∨ c = "TimeMS") ∧ c ∈ cols ∧ inline_divisor c = 1000)) ∧
    (∀ cols : List String, "TimeUS" ∉ cols → "time_boot_ms" ∉ cols → "TimeMS" ∉ cols →
      get_time_column_and_divisor cols = (none, 1) ∧ inline_time_column cols = none) ∧
    (∀ cols : List String,
      (get_time_column_and_divisor cols).1.isSome = (inline_time_column cols).isSome) ∧
    (∀ (fd : FlightData) (tbl : TableV) (df : Df), fd ≠ [] →
      fd.getTable? "BARO" = some tbl → tbl.truthy = true → dfOfTable tbl = .ok df →
      "Alt" ∈ df.cols → "TimeUS" ∉ df.cols → "time_boot_ms" ∉ df.cols →
      "TimeMS" ∉ df.cols →
      detect_unusual_altitude_drops 10 5 (some fd) =
        "No valid timestamp column (TimeUS, time_boot_ms, or TimeMS) found in BARO log.") ∧
    (∀ (fd : FlightData) (tbl : TableV) (df : Df), fd ≠ [] →
      fd.getTable? "GPS" = some tbl → dfOfTable tbl = .ok df →
      "NSats" ∈ df.cols → "TimeUS" ∉ df.cols → "time_boot_ms" ∉ df.cols →
      "TimeMS" ∉ df.cols →
      get_gps_degradation_duration (some fd) =
        "No valid timestamp column (TimeUS, time_boot_ms, or TimeMS) found in GPS data.") ∧
    (∀ (fd : FlightData) (tbl : TableV) (df : Df), fd ≠ [] →
      fd.getTable? "GPS" = some tbl → dfOfTable tbl = .ok df →
      "TimeUS" ∉ df.cols → "time_boot_ms" ∉ df.cols → "TimeMS" ∉ df.cols →
      find_first_gps_loss (some fd) =
        "No valid timestamp column (TimeUS, time_boot_ms, or TimeMS) found in GPS data.") ∧
    (∀ (fd : FlightData) (tbl : TableV) (df : Df), fd ≠ [] →
      fd.getTable? "ERR" = some tbl → tbl.truthy = true → dfOfTable tbl = .ok df →
      df.rows.isEmpty = false → "TimeUS" ∉ df.cols → "time_boot_ms" ∉ df.cols →
      "TimeMS" ∉ df.cols →
      list_critical_errors (some fd) =
        "No valid timestamp column (TimeUS, time_boot_ms, or TimeMS) found in ERR log.") ∧
    (∀ (fd : FlightData) (tbl : TableV) (df : Df), fd ≠ [] →
      fd.getTable? "ERR" = some tbl → tbl.truthy = true → dfOfTable tbl = .ok df →
      "TimeUS" ∉ df.cols → "time_boot_ms" ∉ df.cols → "TimeMS" ∉ df.cols →
      analyze_ekf_health_status (some fd) =
        "No valid timestamp column (TimeUS, time_boot_ms, or TimeMS) found in ERR log.") ∧
    (∀ (fd : FlightData) (tbl : TableV) (df : Df), fd ≠ [] →
      fd.getTable? "ERR" = some tbl → dfOfTable tbl = .ok df →
      "Subsys" ∈ df.cols → "ECode" ∈ df.cols → "TimeUS" ∉ df.cols →
      "TimeMS" ∉ df.cols → "time_boot_ms" ∉ df.cols →
      correlate_errors_with_mode_changes (some fd) =
        "Could not find timestamp column in ERR log.") := by
  refine ⟨?_, ?_, ?_, ?_, ?_, ?_, ?_, ?_, ?_, ?_⟩
  · intro cols h
    simp [get_time_column_and_divisor, inline_time_column, h]
  · intro cols h1 h23
    constructor
    · by_cases h2 : "time_boot_ms" ∈ cols
      · exact ⟨"time_boot_ms", by simp [get_time_column_and_divisor, h1, h2], Or.inl rfl, h2⟩
      · rcases h23 with h | h
        · exact absurd h h2
        · exact ⟨"TimeMS", by simp [get_time_column_and_divisor, h1, h2, h], Or.inr rfl, h⟩
    · by_cases h3 : "TimeMS" ∈ cols
      · exact ⟨"TimeMS", by simp [inline_time_column, h1, h3], Or.inr rfl, h3, rfl⟩
      · rcases h23 with h | h
        · exact ⟨"time_boot_ms", by simp [inline_time_column, h1, h3, h], Or.inl rfl, h, rfl⟩
        · exact absurd h h3
  · intro cols h1 h2 h3
    simp [get_time_column_and_divisor, inline_time_column, h1, h2, h3]
  · intro cols
    by_cases h1 : "TimeUS" ∈ cols <;>
      by_cases h2 : "time_boot_ms" ∈ cols <;>
        by_cases h3 : "TimeMS" ∈ cols <;>
          simp [get_time_column_and_divisor, inline_time_column, h1, h2, h3]
  · intro fd tbl df hne ht htr hdf hAlt h1 h2 h3
    cases fd with
    | nil => exact absurd rfl hne
    | cons hd tl =>
        simp [detect_unusual_altitude_drops, FlightState.loadedData, ht, htr,
          altitude_drops_body, hdf, Bind.bind, Except.bind, Pure.pure, Except.pure,
          Df.hasCol, hAlt, get_time_column_and_divisor, h1, h2, h3]
  · intro fd tbl df hne ht hdf hN h1 h2 h3
    cases fd with
    | nil => exact absurd rfl hne
    | cons hd tl =>
        simp [get_gps_degradation_duration, FlightState.loadedData, ht,
          gps_degradation_body, hdf, Bind.bind, Except.bind, Pure.pure, Except.pure,
          Df.hasCol, hN, get_time_column_and_divisor, h1, h2, h3]
  · intro fd tbl df hne ht hdf h1 h2 h3
    cases fd with
    | nil => exact absurd rfl hne
    | cons hd tl =>
        simp [find_first_gps_loss, FlightState.loadedData, ht,
          first_gps_loss_body, hdf, Bind.bind, Except.bind, Pure.pure, Except.pure,
          get_time_column_and_divisor, h1, h2, h3]
  · intro fd tbl df hne ht htr hdf hr h1 h2 h3
    cases fd with
    | nil => exact absurd rfl hne
    | cons hd tl =>
        simp [list_critical_errors, FlightState.loadedData, ht, htr,
          critical_errors_body, hdf, Bind.bind, Except.bind, Pure.pure, Except.pure,
          hr, get_time_column_and_divisor, h1, h2, h3]
  · intro fd tbl df hne ht htr hdf h1 h2 h3
    cases fd with
    | nil => exact absurd rfl hne
    | cons hd tl =>
        simp [analyze_ekf_health_status, FlightState.loadedData, ht, htr,
          ekf_health_body, hdf, Bind.bind, Except.bind, Pure.pure, Except.pure,
          get_time_column_and_divisor, h1, h2, h3]
  · intro fd tbl df hne ht hdf hS hE h1 h2 h3
    cases fd with
    | nil => exact absurd rfl hne
    | cons hd tl =>
        simp [correlate_errors_with_mode_changes, FlightState.loadedData, ht,
          correlate_body, hdf, Bind.bind, Except.bind, Pure.pure, Except.pure,
          Df.hasCol, hS, hE, inline_time_column, h1, h2, h3]

/-- C3 witness: the clauses instantiated at concrete column lists and a
concrete timestampless ERR table. -/
theorem time_field_priority_and_no_timestamp_witness :
    get_time_column_and_divisor ["TimeUS", "TimeMS"] = (some "TimeUS", 1000000) ∧
    get_time_column_and_divisor ["x", "TimeMS"] = (some "TimeMS", 1000) ∧
    analyze_ekf_health_status (some [("ERR", TableV.rows [[("Subsys", .i 16)]])]) =
      "No valid timestamp column (TimeUS, time_boot_ms, or TimeMS) found in ERR log." := by
  refine ⟨(time_field_priority_and_no_timestamp.1 _ (by decide)).1, ?_, ?_⟩
  · obtain ⟨⟨c, hc, hor, hmem⟩, _⟩ :=
      time_field_priority_and_no_timestamp.2.1 ["x", "TimeMS"] (by decide) (Or.inr (by decide))
    rcases hor with h | h <;> rw [h] at hc hmem
    · exact absurd hmem (by decide)
    · exact hc
  · exact time_field_priority_and_no_timestamp.2.2.2.2.2.2.2.2.1
      [("ERR", TableV.rows [[("Subsys", .i 16)]])] (TableV.rows [[("Subsys", .i 16)]])
      ⟨["Subsys"], [[("Subsys", .i 16)]]⟩ (by decide) (by decide) (by decide) rfl
      (by decide) (by decide) (by decide)

/-- A row whose pair was already produced (by an earlier row or the seen set)
adds nothing to the critical-error listing. -/
theorem critical_lines_dup (tc : String) (dv : ℚ) (p : ℤ × ℤ) :
    ∀ (l1 : List Row) (r : Row) (l2 : List Row) (seen : List (ℤ × ℤ)),
      r.errPair? = some p →
      ((∃ r' ∈ l1, r'.errPair? = some p) ∨ p ∈ seen) →
      critical_lines tc dv (l1 ++ r :: l2) seen = critical_lines tc dv (l1 ++ l2) seen := by
  intro l1
  induction l1 with
  | nil =>
      intro r l2 seen hp hcase
      rcases hcase with ⟨r', hr', _⟩ | hseen
      · exact absurd hr' (List.not_mem_nil r')
      · obtain ⟨ps, pe⟩ := p
        simp [critical_lines, hp, hseen]
  | cons h1 t1 ih =>
      intro r l2 seen hp hcase
      have step : ∀ seen', ((∃ r' ∈ t1, r'.errPair? = some p) ∨ p ∈ seen') →
          critical_lines tc dv (t1 ++ r :: l2) seen' = critical_lines tc dv (t1 ++ l2) seen' :=
        fun seen' hc => ih r l2 seen' hp hc
      cases hh : h1.errPair? with
      | none =>
          simp only [List.cons_append, critical_lines, hh]
          apply step
          rcases hcase with ⟨r', hr', hp'⟩ | hseen
          · rcases List.mem_cons.mp hr' with he | ht
            · rw [he] at hp'
              rw [hp'] at hh
              exact absurd hh (by simp)
            · exact Or.inl ⟨r', ht, hp'⟩
          · exact Or.inr hseen
      | some q =>
          obtain ⟨s', e'⟩ := q
          by_cases hmem : (s', e') ∈ seen
          · simp only [List.cons_append, critical_lines, hh, if_pos hmem]
            apply step
            rcases hcase with ⟨r', hr', hp'⟩ | hseen
            · rcases List.mem_cons.mp hr' with he | ht
              · rw [he] at hp'
                rw [hp'] at hh
                have : p = (s', e') := by injection hh
                exact Or.inr (this ▸ hmem)
              · exact Or.inl ⟨r', ht, hp'⟩
            · exact Or.inr hseen
          · have hrec : critical_lines tc dv (t1 ++ r :: l2) ((s', e') :: seen) =
                critical_lines tc dv (t1 ++ l2) ((s', e') :: seen) := by
              apply step
              rcases hcase with ⟨r', hr', hp'⟩ | hseen
              · rcases List.mem_cons.mp hr' with he | ht
                · rw [he] at hp'
                  rw [hp'] at hh
                  have : p = (s', e') := by injection hh
                  exact Or.inr (this ▸ List.mem_cons_self _ _)
                · exact Or.inl ⟨r', ht, hp'⟩
              · exact Or.inr (List.mem_cons_of_mem _ hseen)
            simp only [List.cons_append, critical_lines, hh, if_neg hmem,
              List.append_eq, hrec]

/-- A row whose `Subsys`/`ECode` pair is missing or uncoercible is skipped
silently, wherever it stands. -/
theorem critical_lines_skip (tc : String) (dv : ℚ) :
    ∀ (l1 : List Row) (r : Row) (l2 : List Row) (seen : List (ℤ × ℤ)),
      r.errPair? = none →
      critical_lines tc dv (l1 ++ r :: l2) seen = critical_lines tc dv (l1 ++ l2) seen := by
  intro l1
  induction l1 with
  | nil =>
      intro r l2 seen hp
      simp [critical_lines, hp]
  | cons h1 t1 ih =>
      intro r l2 seen hp
      cases hh : h1.errPair? with
      | none =>
          simp only [List.cons_append, critical_lines, hh]
          exact ih r l2 seen hp
      | some q =>
          obtain ⟨s', e'⟩ := q
          by_cases hmem : (s', e') ∈ seen
          · simp only [List.cons_append, critical_lines, hh, if_pos hmem]
            exact ih r l2 seen hp
          · simp only [List.cons_append, critical_lines, hh, if_neg hmem,
              List.append_eq, ih r l2 ((s', e') :: seen) hp]

/-- ERR log with a duplicated (Subsys, ECode) pair and an unmapped pair. -/
def dsErrDup : FlightData := [("ERR", .rows
  [[("TimeUS", .i 1000000), ("Subsys", .i 2), ("ECode", .i 1)],
   [("TimeUS", .i 5000000), ("Subsys", .i 2), ("ECode", .i 1)],
   [("TimeUS", .i 9000000), ("Subsys", .i 99), ("ECode", .i 7)]])]

/-- C8: the critical-error listing is idempotent under row duplication — a
row whose coerced (Subsys, ECode) pair matches an earlier row's adds no
entry (first occurrence wins, by exact pair equality); a row whose pair is
missing or uncoercible is silently skipped; and a fresh pair outside the
lookup maps still yields exactly one entry rendered with the explicit
unknown/fallback labels. -/
theorem critical_errors_dedup_and_fallback :
    (∀ (tc : String) (dv : ℚ) (l1 : List Row) (r : Row) (l2 : List Row) (p : ℤ × ℤ),
      r.errPair? = some p → (∃ r' ∈ l1, r'.errPair? = some p) →
      critical_lines tc dv (l1 ++ r :: l2) [] = critical_lines tc dv (l1 ++ l2) []) ∧
    (∀ (tc : String) (dv : ℚ) (l1 : List Row) (r : Row) (l2 : List Row),
      r.errPair? = none →
      critical_lines tc dv (l1 ++ r :: l2) [] = critical_lines tc dv (l1 ++ l2) []) ∧
    (∀ (tc : String) (dv : ℚ) (r : Row) (rs : List Row) (seen : List (ℤ × ℤ))
        (s e : ℤ) (q : ℚ),
      r.errPair? = some (s, e) → (s, e) ∉ seen →
      ardupilot_subsystem_map.find? (fun x => x.1 == s) = none →
      error_code_descriptions.find? (fun x => x.1 == e) = none →
      ((r.get? tc).getD .nan).divQ dv = .ok (.f q) →
      critical_lines tc dv (r :: rs) seen =
        (critical_lines tc dv rs ((s, e) :: seen)).map
          (fun rest => ("- 🕒 `" ++ format_time_string q ++ "` — **Subsystem**: " ++
            ("Unknown Subsystem (" ++ toString s ++ ")") ++ ", **Error Code**: " ++
            ("Code " ++ toString e)) :: rest)) ∧
    (list_critical_errors (some dsErrDup) =
      "🛑 **Critical Errors Detected in Flight Log:**\n- 🕒 `00:01 (1.00 seconds raw)` — **Subsystem**: Radio, **Error Code**: Set (error occurred)\n- 🕒 `00:09 (9.00 seconds raw)` — **Subsystem**: Unknown Subsystem (99), **Error Code**: Code 7") := by
  refine ⟨?_, ?_, ?_, by decide⟩
  · intro tc dv l1 r l2 p hp hex
    exact critical_lines_dup tc dv p l1 r l2 [] hp (Or.inl hex)
  · intro tc dv l1 r l2 hp
    exact critical_lines_skip tc dv l1 r l2 [] hp
  · intro tc dv r rs seen s e q hp hseen hf1 hf2 hq
    simp [critical_lines, hp, hseen, subsysDesc, hf1, ecodeDesc, hf2, hq,
      Bind.bind, Except.bind, Val.formatTime]

/-- C8 witness: the duplication clause applied to the concrete duplicated
ERR rows of `dsErrDup`. -/
theorem critical_errors_dedup_and_fallback_witness :
    critical_lines "TimeUS" 1000000
        ([[("TimeUS", Val.i 1000000), ("Subsys", Val.i 2), ("ECode", Val.i 1)]] ++
          [("TimeUS", Val.i 5000000), ("Subsys", Val.i 2), ("ECode", Val.i 1)] ::
          [[("TimeUS", Val.i 9000000), ("Subsys", Val.i 99), ("ECode", Val.i 7)]]) [] =
      critical_lines "TimeUS" 1000000
        ([[("TimeUS", Val.i 1000000), ("Subsys", Val.i 2), ("ECode", Val.i 1)]] ++
          [[("TimeUS", Val.i 9000000), ("Subsys", Val.i 99), ("ECode", Val.i 7)]]) [] :=
  critical_errors_dedup_and_fallback.1 "TimeUS" 1000000
    [[("TimeUS", Val.i 1000000), ("Subsys", Val.i 2), ("ECode", Val.i 1)]]
    [("TimeUS", Val.i 5000000), ("Subsys", Val.i 2), ("ECode", Val.i 1)]
    [[("TimeUS", Val.i 9000000), ("Subsys", Val.i 99), ("ECode", Val.i 7)]]
    (2, 1) (by decide)
    ⟨[("TimeUS", Val.i 1000000), ("Subsys", Val.i 2), ("ECode", Val.i 1)], by decide, by decide⟩

/-- `first_min_alt` returns nothing only on the empty look-ahead set. -/
theorem first_min_alt_eq_none (l : List (ℚ × ℚ)) :
    first_min_alt l = none ↔ l = [] := by
  cases l with
  | nil => simp [first_min_alt]
  | cons p ps =>
      simp only [first_min_alt]
      constructor
      · intro hc
        exfalso
        cases h : first_min_alt ps with
        | none =>
            rw [h] at hc
            exact Option.noConfusion hc
        | some m =>
            rw [h] at hc
            dsimp only at hc
            by_cases hle : p.2 ≤ m.2
            · rw [if_pos hle] at hc
              exact Option.noConfusion hc
            · rw [if_neg hle] at hc
              exact Option.noConfusion hc
      · intro hc
        exact List.noConfusion hc

/-- `first_min_alt` picks a member of minimum altitude. -/
theorem first_min_alt_spec (l : List (ℚ × ℚ)) (m : ℚ × ℚ)
    (h : first_min_alt l = some m) : m ∈ l ∧ ∀ r ∈ l, m.2 ≤ r.2 := by
  induction l generalizing m with
  | nil => exact absurd h (by simp [first_min_alt])
  | cons p ps ih =>
      simp only [first_min_alt] at h
      cases hps : first_min_alt ps with
      | none =>
          rw [hps] at h
          dsimp only at h
          have : ps = [] := (first_min_alt_eq_none ps).mp hps
          subst this
          have : m = p := by injection h with h'; exact h'.symm
          subst this
          exact ⟨by simp, by simp⟩
      | some m' =>
          rw [hps] at h
          dsimp only at h
          obtain ⟨hm', hmin'⟩ := ih m' hps
          by_cases hle : p.2 ≤ m'.2
          · rw [if_pos hle] at h
            have : m = p := by injection h with h'; exact h'.symm
            subst this
            refine ⟨by simp, ?_⟩
            intro r hr
            rcases List.mem_cons.mp hr with he | ht
            · rw [he]
            · exact le_trans hle (hmin' r ht)
          · rw [if_neg hle] at h
            have : m = m' := by injection h with h'; exact h'.symm
            subst this
            refine ⟨List.mem_cons_of_mem _ hm', ?_⟩
            intro r hr
            rcases List.mem_cons.mp hr with he | ht
            · rw [he]; exact le_of_lt (lt_of_not_le hle)
            · exact hmin' r ht

/-- `filterMap` produces one output element per input whose function fires. -/
theorem length_filterMap_isSome {α β : Type} (f : α → Option β) (l : List α) :
    (l.filterMap f).length = (l.filter (fun a => (f a).isSome)).length := by
  induction l with
  | nil => rfl
  | cons a as ih =>
      cases h : f a with
      | none => simp [List.filterMap_cons, List.filter_cons, h, ih]
      | some b => simp [List.filterMap_cons, List.filter_cons, h, ih]

/-- C2: an anchor row reports a drop iff its look-ahead set — strictly later
rows within the window whose altitude is lower — contains a minimum whose
fall from the anchor reaches the threshold (inclusive); the reported
magnitude and timestamp come from that deepest point (not the first point
below threshold), the duration is positive and at most the window; every
qualifying anchor contributes exactly one report (no merging), as the two
overlapping-drop examples show end to end. -/
theorem drop_detector_window_semantics :
    (∀ (rows : List (ℚ × ℚ)) (th w : ℚ) (p : ℚ × ℚ),
      (drop_at rows th w p).isSome = true ↔
        ∃ q ∈ rows, (p.1 < q.1 ∧ q.1 ≤ p.1 + w ∧ q.2 < p.2) ∧ th ≤ p.2 - q.2 ∧
          ∀ r ∈ rows, (p.1 < r.1 ∧ r.1 ≤ p.1 + w ∧ r.2 < p.2) → q.2 ≤ r.2) ∧
    (∀ (rows : List (ℚ × ℚ)) (th w : ℚ) (p : ℚ × ℚ) (d : DropRep),
      drop_at rows th w p = some d →
      d.anchorTime = p.1 ∧ th ≤ d.magnitude ∧ 0 < d.duration ∧ d.duration ≤ w ∧
        ∃ q ∈ rows, (p.1 < q.1 ∧ q.1 ≤ p.1 + w ∧ q.2 < p.2) ∧
          d.magnitude = p.2 - q.2 ∧ d.duration = q.1 - p.1 ∧
          ∀ r ∈ rows, (p.1 < r.1 ∧ r.1 ≤ p.1 + w ∧ r.2 < p.2) → q.2 ≤ r.2) ∧
    (∀ (rows : List (ℚ × ℚ)) (th w : ℚ),
      (detect_drops_core rows th w).length =
        (rows.filter (fun p => (drop_at rows th w p).isSome)).length) ∧
    (detect_drops_core [(0, 100), (2, 95), (4, 88)] 10 5 =
      [⟨0, 12, 4⟩]) ∧
    (detect_drops_core [(0, 100), (1, 99), (2, 80)] 10 5 =
      [⟨0, 20, 2⟩, ⟨1, 19, 1⟩]) ∧
    (detect_unusual_altitude_drops 10 5 (some [("BARO", .rows
      [[("TimeUS", .i 0), ("Alt", .i 100)],
       [("TimeUS", .i 2000000), ("Alt", .i 95)],
       [("TimeUS", .i 4000000), ("Alt", .i 88)]])]) =
      "Unusual altitude drops detected:\n⚠️ Drop of 12.00m detected over 4.00s starting at approximately 00:00 (0.00 seconds raw).") := by
  have hmemla : ∀ (rows : List (ℚ × ℚ)) (p q : ℚ × ℚ) (w : ℚ),
      q ∈ look_ahead rows p.1 p.2 w ↔
        q ∈ rows ∧ (p.1 < q.1 ∧ q.1 ≤ p.1 + w ∧ q.2 < p.2) := by
    intro rows p q w
    simp [look_ahead, List.mem_filter, Bool.and_eq_true, decide_eq_true_eq, and_assoc]
  refine ⟨?_, ?_, ?_, by decide, by decide, by decide⟩
  · intro rows th w p
    unfold drop_at
    cases hm : first_min_alt (look_ahead rows p.1 p.2 w) with
    | none =>
        have hla : look_ahead rows p.1 p.2 w = [] := (first_min_alt_eq_none _).mp hm
        dsimp only
        simp only [Option.isSome_none, Bool.false_eq_true, false_iff]
        rintro ⟨q, hq, hcond, -, -⟩
        have : q ∈ look_ahead rows p.1 p.2 w := (hmemla rows p q w).mpr ⟨hq, hcond⟩
        rw [hla] at this
        exact absurd this (List.not_mem_nil q)
    | some m =>
        obtain ⟨hmem, hmin⟩ := first_min_alt_spec _ _ hm
        obtain ⟨hmrows, hmcond⟩ := (hmemla rows p m w).mp hmem
        dsimp only
        by_cases hth : th ≤ p.2 - m.2
        · rw [if_pos hth]
          simp only [Option.isSome_some, true_iff]
          exact ⟨m, hmrows, hmcond, hth,
            fun r hr hc => hmin r ((hmemla rows p r w).mpr ⟨hr, hc⟩)⟩
        · rw [if_neg hth]
          simp only [Option.isSome_none, Bool.false_eq_true, false_iff]
          rintro ⟨q, hq, hcond, hqth, -⟩
          have hqla : q ∈ look_ahead rows p.1 p.2 w := (hmemla rows p q w).mpr ⟨hq, hcond⟩
          have : m.2 ≤ q.2 := hmin q hqla
          exact hth (le_trans hqth (by linarith))
  · intro rows th w p d hd
    unfold drop_at at hd
    cases hm : first_min_alt (look_ahead rows p.1 p.2 w) with
    | none =>
        rw [hm] at hd
        dsimp only at hd
        exact absurd hd (by simp)
    | some m =>
        rw [hm] at hd
        dsimp only at hd
        by_cases hth : th ≤ p.2 - m.2
        · rw [if_pos hth] at hd
          have hde : d = ⟨p.1, p.2 - m.2, m.1 - p.1⟩ := by injection hd with h'; exact h'.symm
          subst hde
          obtain ⟨hmem, hmin⟩ := first_min_alt_spec _ _ hm
          obtain ⟨hmrows, hmcond⟩ := (hmemla rows p m w).mp hmem
          refine ⟨rfl, hth, by simp only; linarith [hmcond.1], by simp only; linarith [hmcond.2.1], m,
            hmrows, hmcond, rfl, rfl, fun r hr hc => hmin r ((hmemla rows p r w).mpr ⟨hr, hc⟩)⟩
        · rw [if_neg hth] at hd
          exact absurd hd (by simp)
  · intro rows th w
    exact length_filterMap_isSome (drop_at rows th w) rows

/-- C2 witness: the reporting equivalence applied at a concrete anchor. -/
theorem drop_detector_window_semantics_witness :
    (drop_at [((0 : ℚ), (100 : ℚ)), (4, 88)] 10 5 (0, 100)).isSome = true :=
  (drop_detector_window_semantics.1 [((0 : ℚ), (100 : ℚ)), (4, 88)] 10 5 (0, 100)).mpr
    ⟨(4, 88), by decide, by decide, by decide, by decide⟩

/-- The block decomposition of a strictly increasing index list: every block
respects the call's start, blocks are separated by at least one skipped
index, and the blocks cover exactly the initial range plus the rest. -/
theorem runsAux_spec :
    ∀ (rest : List ℕ) (s e : ℕ), s ≤ e → List.Chain (· < ·) e rest →
      (∀ x ∈ runsAux s e rest, s ≤ x.1 ∧ x.1 ≤ x.2 ∧ (x.2 = e ∨ x.2 ∈ rest)) ∧
      List.Pairwise (fun a b => a.2 + 2 ≤ b.1) (runsAux s e rest) ∧
      (∀ i, (∃ r ∈ runsAux s e rest, r.1 ≤ i ∧ i ≤ r.2) ↔
        (s ≤ i ∧ i ≤ e) ∨ i ∈ rest) := by
  intro rest
  induction rest with
  | nil =>
      intro s e hse _
      refine ⟨?_, by simp [runsAux], ?_⟩
      · intro x hx
        simp only [runsAux, List.mem_singleton] at hx
        subst hx
        exact ⟨le_refl s, hse, Or.inl rfl⟩
      · intro i
        simp [runsAux]
  | cons j rest ih =>
      intro s e hse hchain
      have hej : e < j := (List.chain_cons.mp hchain).1
      have hrest : List.Chain (· < ·) j rest := (List.chain_cons.mp hchain).2
      by_cases hje : j = e + 1
      · have hsj : s ≤ j := by omega
        obtain ⟨ih1, ih2, ih3⟩ := ih s j hsj hrest
        have hR : runsAux s e (j :: rest) = runsAux s j rest := by
          simp [runsAux, hje]
        refine ⟨?_, by rw [hR]; exact ih2, ?_⟩
        · intro x hx
          rw [hR] at hx
          obtain ⟨h1, h2, h3⟩ := ih1 x hx
          refine ⟨h1, h2, ?_⟩
          rcases h3 with h | h
          · exact Or.inr (h ▸ List.mem_cons_self j rest)
          · exact Or.inr (List.mem_cons_of_mem j h)
        · intro i
          rw [hR, ih3 i, List.mem_cons]
          constructor
          · rintro (⟨ha, hb⟩ | h)
            · by_cases hi : i = j
              · exact Or.inr (Or.inl hi)
              · exact Or.inl ⟨ha, by omega⟩
            · exact Or.inr (Or.inr h)
          · rintro (⟨ha, hb⟩ | h | h)
            · exact Or.inl ⟨ha, by omega⟩
            · exact Or.inl ⟨by omega, by omega⟩
            · exact Or.inr h
      · have hej2 : e + 2 ≤ j := by omega
        obtain ⟨ih1, ih2, ih3⟩ := ih j j (le_refl j) hrest
        have hR : runsAux s e (j :: rest) = (s, e) :: runsAux j j rest := by
          simp [runsAux, hje]
        refine ⟨?_, ?_, ?_⟩
        · intro x hx
          rw [hR] at hx
          rcases List.mem_cons.mp hx with he | ht
          · subst he
            exact ⟨le_refl s, hse, Or.inl rfl⟩
          · obtain ⟨h1, h2, h3⟩ := ih1 x ht
            refine ⟨by omega, h2, ?_⟩
            rcases h3 with h | h
            · exact Or.inr (h ▸ List.mem_cons_self j rest)
            · exact Or.inr (List.mem_cons_of_mem j h)
        · rw [hR]
          refine List.Pairwise.cons ?_ ih2
          intro x hx
          have := (ih1 x hx).1
          omega
        · intro i
          rw [hR]
          have base := ih3 i
          simp only [List.mem_cons]
          constructor
          · rintro ⟨r, hr, hc⟩
            rcases hr with he | ht
            · subst he
              exact Or.inl hc
            · rcases base.mp ⟨r, ht, hc⟩ with h | h
              · exact Or.inr (Or.inl (by omega))
              · exact Or.inr (Or.inr h)
          · rintro (h | h | h)
            · exact ⟨(s, e), Or.inl rfl, h⟩
            · obtain ⟨r, hr, hc⟩ := base.mpr (Or.inl (by omega))
              exact ⟨r, Or.inr hr, hc⟩
            · obtain ⟨r, hr, hc⟩ := base.mpr (Or.inr h)
              exact ⟨r, Or.inr hr, hc⟩

/-- `runs` of a strictly increasing list: block shape, separation, and exact
covering of the list's elements. -/
theorem runs_spec (l : List ℕ) (hl : List.Chain' (· < ·) l) :
    (∀ x ∈ runs l, x.1 ≤ x.2 ∧ x.2 ∈ l) ∧
    List.Pairwise (fun a b => a.2 + 2 ≤ b.1) (runs l) ∧
    (∀ i, (∃ r ∈ runs l, r.1 ≤ i ∧ i ≤ r.2) ↔ i ∈ l) := by
  cases l with
  | nil => exact ⟨by simp [runs], by simp [runs], by simp [runs]⟩
  | cons a rest =>
      obtain ⟨h1, h2, h3⟩ := runsAux_spec rest a a (le_refl a) hl
      refine ⟨?_, h2, ?_⟩
      · intro x hx
        obtain ⟨_, hs, ht⟩ := h1 x hx
        refine ⟨hs, ?_⟩
        rcases ht with h | h
        · exact h ▸ List.mem_cons_self a rest
        · exact List.mem_cons_of_mem a h
      · intro i
        rw [show runs (a :: rest) = runsAux a a rest from rfl, h3 i, List.mem_cons]
        constructor
        · rintro (⟨hx, hy⟩ | h)
          · exact Or.inl (by omega)
          · exact Or.inr h
        · rintro (h | h)
          · exact Or.inl ⟨by omega, by omega⟩
          · exact Or.inr h

/-- A predicate holding on one member of a pairwise-incompatible list is
counted exactly once. -/
theorem countP_eq_one_of_pairwise {α : Type} (P : α → Bool) :
    ∀ R : List α, (∃ r ∈ R, P r = true) →
      List.Pairwise (fun a b => ¬(P a = true ∧ P b = true)) R →
      R.countP P = 1 := by
  intro R
  induction R with
  | nil => rintro ⟨r, hr, -⟩ _; exact absurd hr (List.not_mem_nil r)
  | cons a R ih =>
      rintro ⟨r, hr, hPr⟩ hpw
      have hpw' := List.pairwise_cons.mp hpw
      by_cases hPa : P a = true
      · have hzero : R.countP P = 0 := by
          apply List.countP_eq_zero.mpr
          intro b hb
          intro hPb
          exact hpw'.1 b hb ⟨hPa, hPb⟩
        simp [List.countP_cons, hPa, hzero]
      · rcases List.mem_cons.mp hr with he | ht
        · exact absurd (he ▸ hPr) hPa
        · have h1 : R.countP P = 1 := ih ⟨r, ht, hPr⟩ hpw'.2
          simp [List.countP_cons, hPa, h1]

/-- Left end of the time interval charged to a degraded block. -/
def segLower (t : ℕ → ℚ) (n : ℕ) (s e : ℕ) : ℚ :=
  if s = e then
    if e + 1 < n ∧ 0 < s then (t (s - 1) + t s) / 2
    else if e + 1 < n then t s
    else if 0 < s then t (s - 1)
    else t s
  else t s

/-- Right end of the time interval charged to a degraded block. -/
def segUpper (t : ℕ → ℚ) (n : ℕ) (s e : ℕ) : ℚ :=
  if s = e then
    if e + 1 < n ∧ 0 < s then (t e + t (e + 1)) / 2
    else if e + 1 < n then t (e + 1)
    else if 0 < s then t e
    else t e
  else t e

/-- A block's charged duration is its interval's length. -/
theorem segDurQ_eq_upper_sub_lower (t : ℕ → ℚ) (n : ℕ) (s e : ℕ) (hse : s ≤ e) :
    segDurQ t n s e = segUpper t n s e - segLower t n s e := by
  by_cases h : s = e
  · subst h
    unfold segDurQ segUpper segLower
    rw [if_pos rfl, if_pos rfl, if_pos rfl]
    by_cases h1 : s + 1 < n ∧ 0 < s
    · rw [if_pos h1, if_pos h1, if_pos h1]
      ring
    · rw [if_neg h1, if_neg h1, if_neg h1]
      by_cases h2 : s + 1 < n
      · rw [if_pos h2, if_pos h2, if_pos h2]
      · rw [if_neg h2, if_neg h2, if_neg h2]
        by_cases h3 : 0 < s
        · rw [if_pos h3, if_pos h3, if_pos h3]
        · rw [if_neg h3, if_neg h3, if_neg h3]
          ring
  · unfold segDurQ segUpper segLower
    rw [if_neg h, if_neg h, if_neg h]

/-- With sorted times, a block's interval starts no earlier than the series. -/
theorem segLower_ge (t : ℕ → ℚ) (n : ℕ)
    (mono : ∀ i j, i ≤ j → j < n → t i ≤ t j) (s e : ℕ) (hse : s ≤ e) (hen : e < n) :
    t 0 ≤ segLower t n s e := by
  have hs : s < n := lt_of_le_of_lt hse hen
  have hts : t 0 ≤ t s := mono 0 s (Nat.zero_le s) hs
  have hts1 : t 0 ≤ t (s - 1) := mono 0 (s - 1) (Nat.zero_le _) (by omega)
  unfold segLower
  by_cases h : s = e
  · rw [if_pos h]
    by_cases h1 : e + 1 < n ∧ 0 < s
    · rw [if_pos h1]; linarith
    · rw [if_neg h1]
      by_cases h2 : e + 1 < n
      · rw [if_pos h2]; exact hts
      · rw [if_neg h2]
        by_cases h3 : 0 < s
        · rw [if_pos h3]; exact hts1
        · rw [if_neg h3]; exact hts
  · rw [if_neg h]; exact hts

/-- With sorted times, a block's interval ends no later than the series. -/
theorem segUpper_le (t : ℕ → ℚ) (n : ℕ)
    (mono : ∀ i j, i ≤ j → j < n → t i ≤ t j) (s e : ℕ) (hse : s ≤ e) (hen : e < n) :
    segUpper t n s e ≤ t (n - 1) := by
  have hte : t e ≤ t (n - 1) := mono e (n - 1) (by omega) (by omega)
  unfold segUpper
  by_cases h : s = e
  · rw [if_pos h]
    by_cases h1 : e + 1 < n ∧ 0 < s
    · rw [if_pos h1]
      have : t (e + 1) ≤ t (n - 1) := mono (e + 1) (n - 1) (by omega) (by omega)
      linarith
    · rw [if_neg h1]
      by_cases h2 : e + 1 < n
      · rw [if_pos h2]
        exact mono (e + 1) (n - 1) (by omega) (by omega)
      · rw [if_neg h2]
        by_cases h3 : 0 < s
        · rw [if_pos h3]; exact hte
        · rw [if_neg h3]; exact hte
  · rw [if_neg h]; exact hte

/-- Consecutive blocks separated by a skipped index have touching-or-disjoint
charged intervals: the earlier interval ends before the later one begins. -/
theorem segUpper_le_segLower (t : ℕ → ℚ) (n : ℕ)
    (mono : ∀ i j, i ≤ j → j < n → t i ≤ t j)
    (s e s' e' : ℕ) (hse : s ≤ e) (hse' : s' ≤ e') (hen' : e' < n)
    (hgap : e + 2 ≤ s') :
    segUpper t n s e ≤ segLower t n s' e' := by
  have he1n : e + 1 < n := by omega
  have hs'1 : 0 < s' := by omega
  have hup : segUpper t n s e ≤ t (e + 1) := by
    have hte : t e ≤ t (e + 1) := mono e (e + 1) (by omega) he1n
    unfold segUpper
    by_cases h : s = e
    · rw [if_pos h]
      by_cases h1 : e + 1 < n ∧ 0 < s
      · rw [if_pos h1]; linarith
      · rw [if_neg h1]
        rw [if_pos he1n]
    · rw [if_neg h]; exact hte
  have hlo : t (s' - 1) ≤ segLower t n s' e' := by
    have hts' : t (s' - 1) ≤ t s' := mono (s' - 1) s' (by omega) (by omega)
    unfold segLower
    by_cases h : s' = e'
    · rw [if_pos h]
      by_cases h1 : e' + 1 < n ∧ 0 < s'
      · rw [if_pos h1]; linarith
      · rw [if_neg h1]
        by_cases h2 : e' + 1 < n
        · exact absurd ⟨h2, hs'1⟩ h1
        · rw [if_neg h2, if_pos hs'1]
    · rw [if_neg h]; exact hts'
  have hmid : t (e + 1) ≤ t (s' - 1) := mono (e + 1) (s' - 1) (by omega) (by omega)
  linarith

/-- Telescoping bound: a separated chain of valid blocks fits between its
first interval's start and the series end. -/
theorem runs_duration_telescope (t : ℕ → ℚ) (n : ℕ)
    (mono : ∀ i j, i ≤ j → j < n → t i ≤ t j) :
    ∀ (R : List (ℕ × ℕ)) (r : ℕ × ℕ),
      (∀ x ∈ r :: R, x.1 ≤ x.2 ∧ x.2 < n) →
      List.Pairwise (fun a b => a.2 + 2 ≤ b.1) (r :: R) →
      (((r :: R).map (fun x => segDurQ t n x.1 x.2)).sum) ≤
        t (n - 1) - segLower t n r.1 r.2 := by
  intro R
  induction R with
  | nil =>
      intro r hvalid _
      obtain ⟨h1, h2⟩ := hvalid r (List.mem_cons_self _ _)
      simp only [List.map_cons, List.map_nil, List.sum_cons, List.sum_nil, add_zero]
      rw [segDurQ_eq_upper_sub_lower t n r.1 r.2 h1]
      have := segUpper_le t n mono r.1 r.2 h1 h2
      linarith
  | cons r' R' ih =>
      intro r hvalid hpw
      obtain ⟨h1, h2⟩ := hvalid r (List.mem_cons_self _ _)
      obtain ⟨h1', h2'⟩ := hvalid r' (List.mem_cons_of_mem _ (List.mem_cons_self _ _))
      have hpw' := List.pairwise_cons.mp hpw
      have hgap : r.2 + 2 ≤ r'.1 := hpw'.1 r' (List.mem_cons_self _ _)
      have hrest := ih r' (fun x hx => hvalid x (List.mem_cons_of_mem _ hx)) hpw'.2
      simp only [List.map_cons, List.sum_cons] at hrest ⊢
      rw [segDurQ_eq_upper_sub_lower t n r.1 r.2 h1]
      have hchain := segUpper_le_segLower t n mono r.1 r.2 r'.1 r'.2 h1 h1' h2' hgap
      linarith

/-- Membership in the degraded-index list. -/
theorem mem_degIndices (ds : List Bool) (i : ℕ) :
    i ∈ degIndices ds ↔ i < ds.length ∧ ds.getD i false = true := by
  simp [degIndices, List.mem_filter, List.mem_range]

/-- The degraded-index list is strictly increasing. -/
theorem degIndices_chain' (ds : List Bool) :
    List.Chain' (· < ·) (degIndices ds) := by
  apply List.Pairwise.chain'
  exact (List.pairwise_lt_range ds.length).sublist (List.filter_sublist _)

/-- On NaN-free times the NaN-capable block duration is the pure one. -/
theorem segDurO_of_some (t : ℕ → ℚ) (n s e : ℕ) :
    segDurO (fun i => some (t i)) n s e = some (segDurQ t n s e) := by
  unfold segDurO segDurQ
  split_ifs <;> simp [subO]

/-- Folding NaN-capable addition over NaN-free values sums them. -/
theorem foldl_addO_some (l : List ℚ) :
    ∀ a : ℚ, (l.map (fun x => some x)).foldl addO (some a) = some (a + l.sum) := by
  induction l with
  | nil => intro a; simp
  | cons x l ih =>
      intro a
      simp only [List.map_cons, List.foldl_cons, addO, List.sum_cons, ih (a + x)]
      ring_nf

/-- C5: over any time-sorted series, `get_gps_degradation_duration`'s core sum
— last-minus-first for multi-row degraded blocks, half the sum of the two
neighbouring gaps for an interior single row, the single adjacent gap at a
boundary, zero for a lone row — never exceeds the series span (last time minus
first time), and every degraded row lies in exactly one of the blocks the
`while` loop forms; on NaN-free times the NaN-capable computation the tool
runs returns exactly that sum. -/
theorem gps_degradation_total_bounded_and_partition :
    (∀ (t : ℕ → ℚ) (ds : List Bool),
        (∀ i j, i ≤ j → j < ds.length → t i ≤ t j) →
        total_degraded_duration t ds.length ds ≤ t (ds.length - 1) - t 0) ∧
    (∀ (ds : List Bool) (i : ℕ), i < ds.length → ds.getD i false = true →
        (runs (degIndices ds)).countP (fun r => decide (r.1 ≤ i ∧ i ≤ r.2)) = 1) ∧
    (∀ (t : ℕ → ℚ) (n s e : ℕ), s < e → segDurQ t n s e = t e - t s) ∧
    (∀ (t : ℕ → ℚ) (n i : ℕ), 0 < i → i + 1 < n →
        segDurQ t n i i = ((t i - t (i - 1)) + (t (i + 1) - t i)) / 2) ∧
    (∀ (t : ℕ → ℚ) (n : ℕ) (ds : List Bool),
        total_degraded_durationO (fun i => some (t i)) n ds =
          some (total_degraded_duration t n ds)) := by
  refine ⟨?_, ?_, ?_, ?_, ?_⟩
  · intro t ds mono
    have hchain := degIndices_chain' ds
    obtain ⟨hvalid, hpw, _⟩ := runs_spec (degIndices ds) hchain
    unfold total_degraded_duration
    cases hR : runs (degIndices ds) with
    | nil =>
        simp only [List.map_nil, List.sum_nil]
        by_cases hn : ds.length = 0
        · rw [hn]
          simp
        · have := mono 0 (ds.length - 1) (Nat.zero_le _) (by omega)
          linarith
    | cons r R =>
        have hvalid' : ∀ x ∈ r :: R, x.1 ≤ x.2 ∧ x.2 < ds.length := by
          intro x hx
          have hx' : x ∈ runs (degIndices ds) := hR ▸ hx
          obtain ⟨h1, h2⟩ := hvalid x hx'
          exact ⟨h1, ((mem_degIndices ds x.2).mp h2).1⟩
        have hpw' : List.Pairwise (fun a b => a.2 + 2 ≤ b.1) (r :: R) := hR ▸ hpw
        have htel := runs_duration_telescope t ds.length mono R r hvalid' hpw'
        obtain ⟨hr1, hr2⟩ := hvalid' r (List.mem_cons_self _ _)
        have hlow := segLower_ge t ds.length mono r.1 r.2 hr1 hr2
        linarith
  · intro ds i hlen hdeg
    have hchain := degIndices_chain' ds
    obtain ⟨_, hpw, hcov⟩ := runs_spec (degIndices ds) hchain
    have hmem : i ∈ degIndices ds := (mem_degIndices ds i).mpr ⟨hlen, hdeg⟩
    obtain ⟨r, hr, hc⟩ := (hcov i).mpr hmem
    apply countP_eq_one_of_pairwise
    · exact ⟨r, hr, by simpa using hc⟩
    · apply hpw.imp
      intro a b hab
      simp only [decide_eq_true_eq]
      rintro ⟨⟨_, ha2⟩, ⟨hb1, _⟩⟩
      omega
  · intro t n s e hse
    unfold segDurQ
    rw [if_neg (by omega)]
  · intro t n i h0 h1
    unfold segDurQ
    rw [if_pos rfl, if_pos ⟨h1, h0⟩]
    ring
  · intro t n ds
    unfold total_degraded_durationO total_degraded_duration
    have hmap : (runs (degIndices ds)).map (fun r => segDurO (fun i => some (t i)) n r.1 r.2) =
        ((runs (degIndices ds)).map (fun r => segDurQ t n r.1 r.2)).map (fun x => some x) := by
      rw [List.map_map]
      apply List.map_congr_left
      intro r _
      exact segDurO_of_some t n r.1 r.2
    rw [hmap, foldl_addO_some, zero_add]

/-- Witness for C5 at a concrete sorted series and degradation mask. -/
theorem gps_degradation_total_bounded_and_partition_witness :
    total_degraded_duration (fun i => (i : ℚ)) ([true, false, true, true] : List Bool).length
        [true, false, true, true] ≤
      (fun i => (i : ℚ)) (([true, false, true, true] : List Bool).length - 1) -
        (fun i => (i : ℚ)) 0 ∧
    (runs (degIndices [true, false, true, true])).countP
        (fun r => decide (r.1 ≤ 2 ∧ 2 ≤ r.2)) = 1 ∧
    segDurQ (fun i => (i : ℚ)) 4 2 3 = (fun i => (i : ℚ)) 3 - (fun i => (i : ℚ)) 2 ∧
    segDurQ (fun i => (i : ℚ)) 4 1 1 =
      (((fun i => (i : ℚ)) 1 - (fun i => (i : ℚ)) 0) +
        ((fun i => (i : ℚ)) 2 - (fun i => (i : ℚ)) 1)) / 2 :=
  ⟨gps_degradation_total_bounded_and_partition.1 (fun i => (i : ℚ)) [true, false, true, true]
      (fun i j hij _ => by simp only []; exact_mod_cast hij),
   gps_degradation_total_bounded_and_partition.2.1 [true, false, true, true] 2
      (by decide) (by decide),
   gps_degradation_total_bounded_and_partition.2.2.1 (fun i => (i : ℚ)) 4 2 3 (by decide),
   gps_degradation_total_bounded_and_partition.2.2.2.1 (fun i => (i : ℚ)) 4 1 (by decide) (by decide)⟩
